import Mathlib

/-!
# Online Mini Bank System: the ledger core of `src/js/bank.js`

A shallow embedding of the classes `BankAccount` and `BankSystem` and of the
log reset of `src/js/app.js`, followed by theorems about them.

Conventions of the embedding

* A JavaScript number is an IEEE 754 binary64 value.  Every finite binary64
  value is an integer multiple of `2^(-1074)`, so a finite number is stored as
  that integer (`JsNum.fin k` stands for `k * 2^(-1074)`); sums and differences
  are computed exactly on the integers and then rounded to nearest, ties to
  even, as the language prescribes.  The two zeros are not distinguished: no
  comparison or sum of the program can tell them apart.
* A thrown `Error` is its message.  An operation returns the outcome together
  with the ledger as it stands when the operation ends, so that a throw after
  a mutation would be visible.  The account an operation returns is the
  account object as it is when the operation returns.
* The values read from the clock (`new Date()`) are arguments of the
  operations that read it.
* The conversions between strings and numbers that the language performs
  (`Number(s)` on a string and the number-to-string conversion of a template
  literal) are arguments, collected in `Host`.
-/

namespace Bank

/-! ## Numbers -/

/-- A JavaScript number: `fin k` is the finite value `k * 2^(-1074)`. -/
inductive JsNum where
  | fin (k : Int)
  | posInf
  | negInf
  | nan
deriving DecidableEq, Repr

/-- The number of halvings that bring `n` below `2^53`, at most `fuel` of
them: for `fuel = n` this is the number of bits `n` has beyond 53. -/
def excessBits : Nat → Nat → Nat
  | 0, _ => 0
  | fuel + 1, n => if n < 2 ^ 53 then 0 else excessBits fuel (n / 2) + 1

/-- Round a non-negative integer to 53 significant bits, to nearest, ties to
even.  With `e` the number of bits of `n` beyond 53, the quotient `n / 2^e`
has at most 53 bits; for `n < 2^53` the exponent is `0` and `n` is kept. -/
def roundNat (n : Nat) : Nat :=
  let e := excessBits n n
  let q := n / 2 ^ e
  let r := n % 2 ^ e
  if 2 * r < 2 ^ e then q * 2 ^ e
  else if 2 * r = 2 ^ e then (if q % 2 = 0 then q else q + 1) * 2 ^ e
  else (q + 1) * 2 ^ e

/-- The first magnitude that is no longer finite: `2^1024`, in units of
`2^(-1074)`. -/
def overflowBound : Nat := 2 ^ 2098

/-- The binary64 value of an exact integer number of units: rounded, and
infinite when the rounded magnitude reaches `2^1024`. -/
def JsNum.ofInt (k : Int) : JsNum :=
  if 0 ≤ k then
    (if roundNat k.toNat < overflowBound then JsNum.fin (roundNat k.toNat) else JsNum.posInf)
  else
    (if roundNat (-k).toNat < overflowBound then JsNum.fin (-(roundNat (-k).toNat : Int))
     else JsNum.negInf)

/-- The values that are binary64 values: a finite one is kept by rounding and
is below the overflow bound. -/
def JsNum.isDouble : JsNum → Bool
  | JsNum.fin k => decide (roundNat k.natAbs = k.natAbs ∧ k.natAbs < overflowBound)
  | _ => true

/-- The number `0`. -/
def JsNum.zero : JsNum := JsNum.fin 0

/-- JavaScript `a + b` on numbers. -/
def JsNum.add : JsNum → JsNum → JsNum
  | JsNum.nan, _ => JsNum.nan
  | _, JsNum.nan => JsNum.nan
  | JsNum.posInf, JsNum.negInf => JsNum.nan
  | JsNum.negInf, JsNum.posInf => JsNum.nan
  | JsNum.posInf, _ => JsNum.posInf
  | _, JsNum.posInf => JsNum.posInf
  | JsNum.negInf, _ => JsNum.negInf
  | _, JsNum.negInf => JsNum.negInf
  | JsNum.fin a, JsNum.fin b => JsNum.ofInt (a + b)

/-- JavaScript `a - b` on numbers. -/
def JsNum.sub : JsNum → JsNum → JsNum
  | JsNum.nan, _ => JsNum.nan
  | _, JsNum.nan => JsNum.nan
  | JsNum.posInf, JsNum.posInf => JsNum.nan
  | JsNum.negInf, JsNum.negInf => JsNum.nan
  | JsNum.posInf, _ => JsNum.posInf
  | _, JsNum.negInf => JsNum.posInf
  | JsNum.negInf, _ => JsNum.negInf
  | _, JsNum.posInf => JsNum.negInf
  | JsNum.fin a, JsNum.fin b => JsNum.ofInt (a - b)

/-- JavaScript `a < b` on numbers: false as soon as one side is `NaN`. -/
def JsNum.lt : JsNum → JsNum → Bool
  | JsNum.nan, _ => false
  | _, JsNum.nan => false
  | JsNum.fin a, JsNum.fin b => decide (a < b)
  | JsNum.fin _, JsNum.posInf => true
  | JsNum.fin _, JsNum.negInf => false
  | JsNum.posInf, _ => false
  | JsNum.negInf, JsNum.negInf => false
  | JsNum.negInf, _ => true

/-- JavaScript `a <= b` on numbers: false as soon as one side is `NaN`. -/
def JsNum.le : JsNum → JsNum → Bool
  | JsNum.nan, _ => false
  | _, JsNum.nan => false
  | JsNum.fin a, JsNum.fin b => decide (a ≤ b)
  | JsNum.fin _, JsNum.posInf => true
  | JsNum.fin _, JsNum.negInf => false
  | JsNum.posInf, JsNum.posInf => true
  | JsNum.posInf, _ => false
  | JsNum.negInf, _ => true

/-- JavaScript `a > b`. -/
def JsNum.gt (a b : JsNum) : Bool := JsNum.lt b a

/-- JavaScript `a >= b`. -/
def JsNum.ge (a b : JsNum) : Bool := JsNum.le b a

/-- The global `isNaN` on a number. -/
def JsNum.isNaN : JsNum → Bool
  | JsNum.nan => true
  | _ => false

/-! ## Values, strings and the host -/

/-- The argument values the callers of the ledger pass for an amount: a
number (the seed data of `app.js`) or a string (a form field). -/
inductive JsVal where
  | num (n : JsNum)
  | str (s : String)
deriving DecidableEq, Repr

/-- The conversions of the language between strings and numbers. -/
structure Host where
  /-- The value of `Number(s)` for a string `s`. -/
  stringToNumber : String → JsNum
  /-- The text a template literal produces for a number. -/
  numberToString : JsNum → String

/-- JavaScript `Number(v)`. -/
def Number (H : Host) : JsVal → JsNum
  | JsVal.num n => n
  | JsVal.str s => H.stringToNumber s

/-- The text a template literal produces for a value. -/
def JsVal.text (H : Host) : JsVal → String
  | JsVal.num n => H.numberToString n
  | JsVal.str s => s

/-- The characters `String.prototype.trim` removes: white space and line
terminators. -/
def isJsWhiteSpace (c : Char) : Bool :=
  let n := c.toNat
  n == 0x09 || n == 0x0A || n == 0x0B || n == 0x0C || n == 0x0D || n == 0x20 ||
  n == 0xA0 || n == 0x1680 || (0x2000 ≤ n && n ≤ 0x200A) || n == 0x2028 ||
  n == 0x2029 || n == 0x202F || n == 0x205F || n == 0x3000 || n == 0xFEFF

/-- JavaScript `s.trim()`. -/
def trim (s : String) : String :=
  String.mk (((s.data.dropWhile isJsWhiteSpace).reverse.dropWhile isJsWhiteSpace).reverse)

/-! ## BankAccount -/

/-- The class `BankAccount`: the fields its constructor sets. -/
structure BankAccount where
  accountNo : String
  holderName : String
  balance : JsNum
  isKYCVerified : Bool
  createdAt : Nat
deriving DecidableEq, Repr

/-! ## The `Map` of accounts -/

/-- A JavaScript `Map` from account number to account: its entries in
insertion order. -/
abbrev AccountMap := List (String × BankAccount)

/-- JavaScript `Map.prototype.get`. -/
def AccountMap.get : AccountMap → String → Option BankAccount
  | [], _ => none
  | (k, a) :: rest, key => if k = key then some a else AccountMap.get rest key

/-- JavaScript `Map.prototype.set`: an existing key keeps its place and gets the new
value, a new key is added at the end. -/
def AccountMap.set : AccountMap → String → BankAccount → AccountMap
  | [], key, v => [(key, v)]
  | (k, a) :: rest, key, v =>
    if k = key then (k, v) :: rest else (k, a) :: AccountMap.set rest key v

/-- An assignment to the `balance` field of the account object stored under
`key`, the object `get` returns for that key.  The map holds one object per
entry (`createAccount` makes a new object for each), so the assignment changes
this entry and no other. -/
def AccountMap.setBalance : AccountMap → String → JsNum → AccountMap
  | [], _, _ => []
  | (k, a) :: rest, key, b =>
    if k = key then (k, { a with balance := b }) :: rest
    else (k, a) :: AccountMap.setBalance rest key b

/-- JavaScript `Array.from(map.values())`. -/
def AccountMap.values (m : AccountMap) : List BankAccount := m.map Prod.snd

/-! ## BankSystem -/

/-- An entry of the transaction log. -/
structure LogEntry where
  id : Nat
  timestamp : String
  type : String
  details : String
  status : String
deriving DecidableEq, Repr

/-- The class `BankSystem`: the fields its constructor sets.  `_counter` starts
at `1000` and is only ever incremented by one, so it is a whole number; it is
exact, and printed by a template literal as its decimal digits, as long as it
is below `2^53`, which takes more accounts than a `Map` can hold.  It is
therefore a natural number here. -/
structure BankSystem where
  accounts : AccountMap
  transactionLog : List LogEntry
  _counter : Nat
deriving DecidableEq, Repr

/-- The constructor of `BankSystem`. -/
def BankSystem.new : BankSystem :=
  { accounts := [], transactionLog := [], _counter := 1000 }

/-- The outcome of a call (the returned value or the message of the thrown
`Error`) and the ledger when the call ends. -/
abbrev Outcome (α : Type) := Except String α × BankSystem

/-- The method `_generateAccountNo`: increments the counter, then formats it. -/
def BankSystem._generateAccountNo (self : BankSystem) : String × BankSystem :=
  let self := { self with _counter := self._counter + 1 }
  ("ACC-" ++ toString self._counter, self)

/-- The method `_log`: puts a new entry in front of the log.  The entry's `id`
is the length of the log before the call plus one. -/
def BankSystem._log (self : BankSystem) (timestamp : String) (type details status : String) :
    BankSystem :=
  { self with
    transactionLog :=
      { id := self.transactionLog.length + 1
        timestamp := timestamp
        type := type
        details := details
        status := status } :: self.transactionLog }

/-- The method `_requireAccount`: looks the trimmed number up, throws when there
is no such account. -/
def BankSystem._requireAccount (self : BankSystem) (accountNo : String) :
    Except String BankAccount :=
  match self.accounts.get (trim accountNo) with
  | some acc => Except.ok acc
  | none => Except.error ("Account " ++ accountNo ++ " not found.")

/-- The method `createAccount`.  `createdAt` is the clock value the constructor
of `BankAccount` reads, `timestamp` the one `_log` reads. -/
def BankSystem.createAccount (H : Host) (self : BankSystem) (holderName : String)
    (initialBalance : JsVal) (isKYCVerified : Bool) (createdAt : Nat) (timestamp : String) :
    Outcome BankAccount :=
  let holderName := trim holderName
  if holderName = "" then (Except.error "Holder name cannot be empty.", self)
  else if (Number H initialBalance).isNaN || (Number H initialBalance).lt JsNum.zero then
    (Except.error "Initial balance must be a non-negative number.", self)
  else
    let (accountNo, self) := self._generateAccountNo
    let account : BankAccount :=
      { accountNo := accountNo
        holderName := holderName
        balance := Number H initialBalance
        isKYCVerified := isKYCVerified
        createdAt := createdAt }
    let self := { self with accounts := self.accounts.set accountNo account }
    let self := self._log timestamp "CREATE_ACCOUNT"
      ("Account " ++ accountNo ++ " created for \"" ++ holderName ++ "\". Balance: ₹"
        ++ initialBalance.text H ++ ". KYC: "
        ++ (if isKYCVerified then "Verified" else "Not Verified") ++ ".")
      "SUCCESS"
    (Except.ok account, self)

/-- The method `deposit`. -/
def BankSystem.deposit (H : Host) (self : BankSystem) (accountNo : String) (amount : JsVal)
    (timestamp : String) : Outcome BankAccount :=
  let amount := Number H amount
  if amount.isNaN || amount.le JsNum.zero then
    (Except.error "Deposit amount must be greater than zero.", self)
  else
    match self._requireAccount accountNo with
    | Except.error e => (Except.error e, self)
    | Except.ok acc =>
      let acc := { acc with balance := acc.balance.add amount }
      let self := { self with accounts := self.accounts.setBalance (trim accountNo) acc.balance }
      let self := self._log timestamp "DEPOSIT"
        ("₹" ++ H.numberToString amount ++ " deposited to " ++ accountNo ++ " ("
          ++ acc.holderName ++ "). New balance: ₹" ++ H.numberToString acc.balance ++ ".")
        "SUCCESS"
      (Except.ok acc, self)

/-- The method `withdraw`. -/
def BankSystem.withdraw (H : Host) (self : BankSystem) (accountNo : String) (amount : JsVal)
    (timestamp : String) : Outcome BankAccount :=
  let amount := Number H amount
  if amount.isNaN || amount.le JsNum.zero then
    (Except.error "Withdrawal amount must be greater than zero.", self)
  else
    match self._requireAccount accountNo with
    | Except.error e => (Except.error e, self)
    | Except.ok acc =>
      if amount.gt acc.balance then
        (Except.error ("Insufficient balance. Available: ₹" ++ H.numberToString acc.balance
          ++ ", Requested: ₹" ++ H.numberToString amount ++ "."), self)
      else
        let acc := { acc with balance := acc.balance.sub amount }
        let self :=
          { self with accounts := self.accounts.setBalance (trim accountNo) acc.balance }
        let self := self._log timestamp "WITHDRAWAL"
          ("₹" ++ H.numberToString amount ++ " withdrawn from " ++ accountNo ++ " ("
            ++ acc.holderName ++ "). New balance: ₹" ++ H.numberToString acc.balance ++ ".")
          "SUCCESS"
        (Except.ok acc, self)

/-- The object `transferMoney` returns. -/
structure Transfer where
  sender : BankAccount
  receiver : BankAccount
deriving DecidableEq, Repr

/-- The method `transferMoney`. -/
def BankSystem.transferMoney (H : Host) (self : BankSystem)
    (senderAccountNo receiverAccountNo : String) (amount : JsVal) (timestamp : String) :
    Outcome Transfer :=
  let amount := Number H amount
  if amount.isNaN || amount.le JsNum.zero then
    (Except.error "Transfer amount must be greater than zero.", self)
  else if trim senderAccountNo = trim receiverAccountNo then
    (Except.error "Sender and receiver accounts cannot be the same.", self)
  else
    match self._requireAccount senderAccountNo with
    | Except.error e => (Except.error e, self)
    | Except.ok sender =>
      match self._requireAccount receiverAccountNo with
      | Except.error e => (Except.error e, self)
      | Except.ok receiver =>
        if !sender.isKYCVerified then
          (Except.error ("Transfer failed: Sender account " ++ senderAccountNo ++ " ("
            ++ sender.holderName ++ ") is not KYC verified."), self)
        else if amount.gt sender.balance then
          (Except.error ("Transfer failed: Insufficient balance in " ++ senderAccountNo
            ++ ". Available: ₹" ++ H.numberToString sender.balance ++ ", Requested: ₹"
            ++ H.numberToString amount ++ "."), self)
        else
          let sender := { sender with balance := sender.balance.sub amount }
          let self :=
            { self with
              accounts := self.accounts.setBalance (trim senderAccountNo) sender.balance }
          let receiver := { receiver with balance := receiver.balance.add amount }
          let self :=
            { self with
              accounts := self.accounts.setBalance (trim receiverAccountNo) receiver.balance }
          let self := self._log timestamp "TRANSFER"
            ("₹" ++ H.numberToString amount ++ " transferred from " ++ senderAccountNo ++ " ("
              ++ sender.holderName ++ ") to " ++ receiverAccountNo ++ " ("
              ++ receiver.holderName ++ "). " ++ "Sender balance: ₹"
              ++ H.numberToString sender.balance ++ ". Receiver balance: ₹"
              ++ H.numberToString receiver.balance ++ ".")
            "SUCCESS"
          (Except.ok { sender := sender, receiver := receiver }, self)

/-- The method `getAccount`. -/
def BankSystem.getAccount (self : BankSystem) (accountNo : String) : Option BankAccount :=
  self.accounts.get (trim accountNo)

/-- The method `getAllAccounts`. -/
def BankSystem.getAllAccounts (self : BankSystem) : List BankAccount :=
  self.accounts.values

/-- The method `getTransactionLog`. -/
def BankSystem.getTransactionLog (self : BankSystem) : List LogEntry :=
  self.transactionLog

/-- The click handler of `btn-clear-log` in `app.js`: replaces the log by an
empty array. -/
def BankSystem.clearLog (self : BankSystem) : BankSystem :=
  { self with transactionLog := [] }

/-! ## Sequences of calls -/

/-- A call on the ledger by the page: one of the four operations with its
arguments, or the log reset. -/
inductive Call where
  | createAccount (holderName : String) (initialBalance : JsVal) (isKYCVerified : Bool)
      (createdAt : Nat) (timestamp : String)
  | deposit (accountNo : String) (amount : JsVal) (timestamp : String)
  | withdraw (accountNo : String) (amount : JsVal) (timestamp : String)
  | transferMoney (senderAccountNo receiverAccountNo : String) (amount : JsVal)
      (timestamp : String)
  | clearLog
deriving DecidableEq, Repr

/-- The amount argument of a call, when it has one. -/
def Call.amount : Call → Option JsVal
  | Call.createAccount _ initialBalance _ _ _ => some initialBalance
  | Call.deposit _ amount _ => some amount
  | Call.withdraw _ amount _ => some amount
  | Call.transferMoney _ _ amount _ => some amount
  | Call.clearLog => none

/-- JavaScript `Number.isFinite`. -/
def JsNum.isFinite : JsNum → Bool
  | JsNum.fin _ => true
  | _ => false

/-- The amount of the call, if any, is a finite number. -/
def Call.finiteAmount (H : Host) (c : Call) : Bool :=
  match c.amount with
  | some v => (Number H v).isFinite
  | none => true

/-- Make one call: whether it returned (`ok`) or threw, and the ledger after
it.  The log reset always returns. -/
def BankSystem.call (H : Host) (self : BankSystem) : Call → Outcome Unit
  | Call.createAccount holderName initialBalance isKYCVerified createdAt timestamp =>
    let r := self.createAccount H holderName initialBalance isKYCVerified createdAt timestamp
    (r.1.map (fun _ => ()), r.2)
  | Call.deposit accountNo amount timestamp =>
    let r := self.deposit H accountNo amount timestamp
    (r.1.map (fun _ => ()), r.2)
  | Call.withdraw accountNo amount timestamp =>
    let r := self.withdraw H accountNo amount timestamp
    (r.1.map (fun _ => ()), r.2)
  | Call.transferMoney senderAccountNo receiverAccountNo amount timestamp =>
    let r := self.transferMoney H senderAccountNo receiverAccountNo amount timestamp
    (r.1.map (fun _ => ()), r.2)
  | Call.clearLog => (Except.ok (), self.clearLog)

/-- Make the calls of a list one after the other, going on after a failed call
as the page does (it catches the error and shows its message). -/
def BankSystem.calls (H : Host) (self : BankSystem) : List Call → BankSystem
  | [] => self
  | c :: rest => BankSystem.calls H (self.call H c).2 rest

/-! ## Properties of ledgers -/

/-- Every account of the ledger has `balance >= 0`. -/
def BankSystem.balancesNonNegative (self : BankSystem) : Prop :=
  ∀ acc ∈ self.getAllAccounts, acc.balance.ge JsNum.zero = true

/-- The account numbers returned by the `createAccount` calls of a sequence that
succeed, in the order of the calls; the sequence starts at the ledger `self`.
Its length is the number of `createAccount` calls that succeeded. -/
def BankSystem.createdAccountNos (H : Host) (self : BankSystem) : List Call → List String
  | [] => []
  | Call.createAccount holderName initialBalance isKYCVerified createdAt timestamp :: rest =>
    let r := self.createAccount H holderName initialBalance isKYCVerified createdAt timestamp
    (match r.1 with
      | Except.ok account => [account.accountNo]
      | Except.error _ => []) ++ BankSystem.createdAccountNos H r.2 rest
  | c :: rest => BankSystem.createdAccountNos H (self.call H c).2 rest

/-- The ledger holds exactly `m` accounts, the `i`-th (from `0`) stored under
the number `ACC-(1001 + i)` and carrying that number, and its counter is
`1000 + m`. -/
def BankSystem.numbered (self : BankSystem) (m : Nat) : Prop :=
  self._counter = 1000 + m ∧
  self.accounts.map (fun p => (p.1, p.2.accountNo))
    = (List.range m).map
        (fun i => ("ACC-" ++ toString (1001 + i), "ACC-" ++ toString (1001 + i)))

/-- The count of a call: `1` when it returned, `0` when it threw. -/
def returned {α : Type} : Except String α → Nat
  | Except.ok _ => 1
  | Except.error _ => 0

/-- The number of calls of a sequence that return rather than throw; the
sequence starts at the ledger `self`. -/
def BankSystem.successes (H : Host) (self : BankSystem) : List Call → Nat
  | [] => 0
  | c :: rest => returned (self.call H c).1 + BankSystem.successes H (self.call H c).2 rest

/-! ## Inputs for examples -/

/-- The whole number `n` as a number of units of `2^(-1074)`; a binary64
value when `n < 2^53`. -/
def JsNum.whole (n : Nat) : JsNum := JsNum.fin (Int.ofNat (n * 2 ^ 1074))

/-- The whole number a list of decimal digits writes (`0` for no digit at
all), `none` when a character is not a decimal digit. -/
def digitsValue (cs : List Char) : Option Nat :=
  cs.foldl
    (fun acc c =>
      match acc with
      | some n => if c.isDigit then some (10 * n + (c.toNat - 48)) else none
      | none => none)
    (some 0)

/-- A host for running examples.  It agrees with the language on the inputs
the examples use: a string of decimal digits is read as that whole number, and
a whole number below `2^53`, an infinity and `NaN` are printed as the language
prints them.  Other strings are read as `NaN` and other numbers are printed as
`#`, which is not what the language does. -/
def exampleHost : Host where
  stringToNumber := fun s =>
    match digitsValue s.data with
    | some n => JsNum.ofInt (Int.ofNat (n * 2 ^ 1074))
    | none => JsNum.nan
  numberToString := fun x =>
    match x with
    | JsNum.nan => "NaN"
    | JsNum.posInf => "Infinity"
    | JsNum.negInf => "-Infinity"
    | JsNum.fin k =>
      if 0 ≤ k ∧ k.toNat % 2 ^ 1074 = 0 ∧ k.toNat / 2 ^ 1074 < 2 ^ 53 then
        toString (k.toNat / 2 ^ 1074)
      else "#"

/-- The ledger `app.js` starts with: a new `BankSystem` and its three seed
accounts. -/
def seedLedger : BankSystem :=
  BankSystem.new.calls exampleHost
    [Call.createAccount "Alice Johnson" (JsVal.num (JsNum.whole 50000)) true 0 "t0",
     Call.createAccount "Bob Smith" (JsVal.num (JsNum.whole 15000)) false 0 "t0",
     Call.createAccount "Carol Davis" (JsVal.num (JsNum.whole 30000)) true 0 "t0"]

/-- A ledger with a verified account holding `2^53 + 2 = 9007199254740994` and
an account holding `1`. -/
def largeLedger : BankSystem :=
  BankSystem.new.calls exampleHost
    [Call.createAccount "Dana" (JsVal.num (JsNum.whole 9007199254740994)) true 0 "t0",
     Call.createAccount "Eli" (JsVal.num (JsNum.whole 1)) true 0 "t0"]

/-! ## Theorems -/

/-! ### Numbers -/

theorem JsNum.ge_zero_iff (b : JsNum) :
    b.ge JsNum.zero = true ↔ b = JsNum.posInf ∨ ∃ k : Int, 0 ≤ k ∧ b = JsNum.fin k := by
  cases b with
  | fin k => simp [JsNum.ge, JsNum.le, JsNum.zero]
  | posInf => simp [JsNum.ge, JsNum.le, JsNum.zero]
  | negInf => simp [JsNum.ge, JsNum.le, JsNum.zero]
  | nan => simp [JsNum.ge, JsNum.le, JsNum.zero]

theorem JsNum.ofInt_ge_zero {k : Int} (h : 0 ≤ k) : (JsNum.ofInt k).ge JsNum.zero = true := by
  unfold JsNum.ofInt
  rw [if_pos h]
  split
  · simp [JsNum.ge, JsNum.le, JsNum.zero]
  · rfl

/-- Adding a finite positive amount to a non-negative balance gives a
non-negative balance. -/
theorem JsNum.add_ge_zero {b : JsNum} {x : Int} (hb : b.ge JsNum.zero = true)
    (hx : (JsNum.fin x).le JsNum.zero = false) : (b.add (JsNum.fin x)).ge JsNum.zero = true := by
  have hx0 : 0 < x := by simpa [JsNum.le, JsNum.zero] using hx
  rcases (JsNum.ge_zero_iff b).1 hb with rfl | ⟨k, hk, rfl⟩
  · rfl
  · exact JsNum.ofInt_ge_zero (by omega)

/-- Subtracting a finite amount that does not exceed it from a non-negative
balance gives a non-negative balance. -/
theorem JsNum.sub_ge_zero {b : JsNum} {x : Int} (hb : b.ge JsNum.zero = true)
    (hx : (JsNum.fin x).gt b = false) : (b.sub (JsNum.fin x)).ge JsNum.zero = true := by
  rcases (JsNum.ge_zero_iff b).1 hb with rfl | ⟨k, hk, rfl⟩
  · rfl
  · have hxk : x ≤ k := by simpa [JsNum.gt, JsNum.lt] using hx
    exact JsNum.ofInt_ge_zero (by omega)

theorem JsNum.isFinite_iff (b : JsNum) : b.isFinite = true ↔ ∃ k, b = JsNum.fin k := by
  cases b <;> simp [JsNum.isFinite]

/-! ### Rounding -/

theorem excessBits_spec (fuel : Nat) :
    ∀ n : Nat, n < 2 ^ 53 * 2 ^ fuel →
      n < 2 ^ 53 * 2 ^ excessBits fuel n ∧
      (0 < excessBits fuel n → 2 ^ 52 * 2 ^ excessBits fuel n ≤ n) := by
  induction fuel with
  | zero =>
    intro n h
    simp only [excessBits]
    exact ⟨h, fun h0 => absurd h0 (lt_irrefl 0)⟩
  | succ fuel ih =>
    intro n h
    simp only [excessBits]
    by_cases hn : n < 2 ^ 53
    · rw [if_pos hn]
      exact ⟨by simpa using hn, fun h0 => absurd h0 (lt_irrefl 0)⟩
    · rw [if_neg hn]
      have hhalf : n / 2 < 2 ^ 53 * 2 ^ fuel := by
        rw [pow_succ] at h
        omega
      obtain ⟨ih1, ih2⟩ := ih (n / 2) hhalf
      refine ⟨?_, fun _ => ?_⟩
      · rw [pow_succ]
        omega
      · rw [pow_succ]
        by_cases h0 : 0 < excessBits fuel (n / 2)
        · have := ih2 h0
          omega
        · have h00 : excessBits fuel (n / 2) = 0 := by omega
          rw [h00]
          omega

theorem lt_two_pow_self_mul (n : Nat) : n < 2 ^ 53 * 2 ^ n := by
  have h1 : n < 2 ^ n := Nat.lt_two_pow n
  have h2 : 2 ^ n ≤ 2 ^ 53 * 2 ^ n := Nat.le_mul_of_pos_left _ (by positivity)
  omega


theorem roundNat_floor_le (n : Nat) :
    n / 2 ^ excessBits n n * 2 ^ excessBits n n ≤ roundNat n := by
  unfold roundNat
  simp only
  split_ifs
  · exact le_refl _
  · exact le_refl _
  · exact Nat.mul_le_mul_right _ (Nat.le_succ _)
  · exact Nat.mul_le_mul_right _ (Nat.le_succ _)

theorem roundNat_dvd (n : Nat) : 2 ^ excessBits n n ∣ roundNat n := by
  unfold roundNat
  simp only
  split_ifs <;> exact Dvd.intro_left _ rfl

theorem roundNat_of_excessBits_zero {n : Nat} (h : excessBits n n = 0) : roundNat n = n := by
  unfold roundNat
  simp [h, Nat.mod_one]

/-- Rounding never goes below a binary64 value that the rounded number is at
least as large as. -/
theorem le_roundNat_of_le {a n : Nat} (ha : roundNat a = a) (han : a ≤ n) :
    a ≤ roundNat n := by
  obtain ⟨hn1, hn2⟩ := excessBits_spec n n (lt_two_pow_self_mul n)
  obtain ⟨ha1, ha2⟩ := excessBits_spec a a (lt_two_pow_self_mul a)
  have hfloor := roundNat_floor_le n
  by_cases he : excessBits n n = 0
  · rw [roundNat_of_excessBits_zero he]
    exact han
  · have hpos : 0 < excessBits n n := Nat.pos_of_ne_zero he
    have hlow := hn2 hpos
    have hF : 2 ^ 52 * 2 ^ excessBits n n ≤ n / 2 ^ excessBits n n * 2 ^ excessBits n n := by
      apply Nat.mul_le_mul_right
      exact (Nat.le_div_iff_mul_le (by positivity)).2 hlow
    by_cases hsmall : a < 2 ^ 52 * 2 ^ excessBits n n
    · omega
    · have hge : 2 ^ 52 * 2 ^ excessBits n n ≤ a := Nat.le_of_not_lt hsmall
      have heq : excessBits a a = excessBits n n := by
        have h1 : excessBits n n ≤ excessBits a a := by
          by_contra hc
          have hlt : excessBits a a + 1 ≤ excessBits n n := by omega
          have hp : 2 ^ (excessBits a a + 1) ≤ 2 ^ excessBits n n :=
            Nat.pow_le_pow_right (by decide) hlt
          rw [pow_succ] at hp
          have : 2 ^ 53 * 2 ^ excessBits a a ≤ 2 ^ 52 * 2 ^ excessBits n n := by
            calc 2 ^ 53 * 2 ^ excessBits a a = 2 ^ 52 * (2 ^ excessBits a a * 2) := by ring
              _ ≤ 2 ^ 52 * 2 ^ excessBits n n := Nat.mul_le_mul_left _ hp
          omega
        have h2 : excessBits a a ≤ excessBits n n := by
          by_contra hc
          have hlt : excessBits n n + 1 ≤ excessBits a a := by omega
          have hp : 2 ^ (excessBits n n + 1) ≤ 2 ^ excessBits a a :=
            Nat.pow_le_pow_right (by decide) hlt
          rw [pow_succ] at hp
          have hapos : 0 < excessBits a a := by omega
          have := ha2 hapos
          have : 2 ^ 53 * 2 ^ excessBits n n ≤ 2 ^ 52 * 2 ^ excessBits a a := by
            calc 2 ^ 53 * 2 ^ excessBits n n = 2 ^ 52 * (2 ^ excessBits n n * 2) := by ring
              _ ≤ 2 ^ 52 * 2 ^ excessBits a a := Nat.mul_le_mul_left _ hp
          omega
        omega
      obtain ⟨c, hc⟩ := roundNat_dvd a
      rw [ha, heq] at hc
      have hcle : c ≤ n / 2 ^ excessBits n n := by
        apply (Nat.le_div_iff_mul_le (by positivity)).2
        rw [mul_comm]
        omega
      calc a = 2 ^ excessBits n n * c := hc
        _ = c * 2 ^ excessBits n n := mul_comm _ _
        _ ≤ n / 2 ^ excessBits n n * 2 ^ excessBits n n := Nat.mul_le_mul_right _ hcle
        _ ≤ roundNat n := hfloor

/-- A number of at most 53 bits times a power of two is kept by rounding. -/
theorem roundNat_mul_two_pow {n : Nat} (j : Nat) (h : n < 2 ^ 53) :
    roundNat (n * 2 ^ j) = n * 2 ^ j := by
  obtain ⟨h1, h2⟩ := excessBits_spec (n * 2 ^ j) (n * 2 ^ j) (lt_two_pow_self_mul _)
  have he : excessBits (n * 2 ^ j) (n * 2 ^ j) ≤ j := by
    by_contra hc
    have hpos : 0 < excessBits (n * 2 ^ j) (n * 2 ^ j) := by omega
    have hlow := h2 hpos
    have hp : 2 ^ (j + 1) ≤ 2 ^ excessBits (n * 2 ^ j) (n * 2 ^ j) :=
      Nat.pow_le_pow_right (by decide) (by omega)
    have hn : n * 2 ^ j < 2 ^ 53 * 2 ^ j :=
      Nat.mul_lt_mul_of_pos_right h (by positivity)
    have h3 : 2 ^ 52 * 2 ^ (j + 1) ≤ 2 ^ 52 * 2 ^ excessBits (n * 2 ^ j) (n * 2 ^ j) :=
      Nat.mul_le_mul_left _ hp
    have h4 : (2 : Nat) ^ 52 * 2 ^ (j + 1) = 2 ^ 53 * 2 ^ j := by ring
    omega
  have hdvd : 2 ^ excessBits (n * 2 ^ j) (n * 2 ^ j) ∣ n * 2 ^ j :=
    Dvd.dvd.mul_left (pow_dvd_pow 2 he) n
  have hmod : n * 2 ^ j % 2 ^ excessBits (n * 2 ^ j) (n * 2 ^ j) = 0 :=
    Nat.mod_eq_zero_of_dvd hdvd
  unfold roundNat
  simp only [hmod, Nat.mul_zero]
  rw [if_pos (by positivity)]
  exact Nat.div_mul_cancel hdvd

set_option exponentiation.threshold 4096 in
theorem JsNum.ofInt_mul_two_pow {n : Nat} (j : Nat) (h : n < 2 ^ 53) (hj : 53 + j ≤ 2098) :
    JsNum.ofInt (Int.ofNat (n * 2 ^ j)) = JsNum.fin (Int.ofNat (n * 2 ^ j)) := by
  unfold JsNum.ofInt
  have h0 : (0 : Int) ≤ Int.ofNat (n * 2 ^ j) := Int.ofNat_nonneg _
  rw [if_pos h0]
  rw [show (Int.ofNat (n * 2 ^ j)).toNat = n * 2 ^ j from rfl, roundNat_mul_two_pow j h]
  have hb : n * 2 ^ j < overflowBound := by
    unfold overflowBound
    calc n * 2 ^ j < 2 ^ 53 * 2 ^ j := Nat.mul_lt_mul_of_pos_right h (by positivity)
      _ = 2 ^ (53 + j) := by rw [← pow_add]
      _ ≤ 2 ^ 2098 := Nat.pow_le_pow_right (by decide) hj
  rw [if_pos hb]
  rfl

/-- The sum of two whole numbers is exact when it is below `2^53`. -/
theorem JsNum.add_whole {a b : Nat} (h : a + b < 2 ^ 53) :
    (JsNum.whole a).add (JsNum.whole b) = JsNum.whole (a + b) := by
  unfold JsNum.whole
  simp only [JsNum.add]
  have hsum : Int.ofNat (a * 2 ^ 1074) + Int.ofNat (b * 2 ^ 1074)
      = Int.ofNat ((a + b) * 2 ^ 1074) := by
    rw [Nat.add_mul]
    rfl
  rw [hsum]
  exact JsNum.ofInt_mul_two_pow 1074 h (by decide)

/-- The difference of two whole numbers is exact when the larger one is below
`2^53`. -/
theorem JsNum.sub_whole {a b : Nat} (ha : a < 2 ^ 53) (hb : b ≤ a) :
    (JsNum.whole a).sub (JsNum.whole b) = JsNum.whole (a - b) := by
  unfold JsNum.whole
  simp only [JsNum.sub]
  have hdiff : Int.ofNat (a * 2 ^ 1074) - Int.ofNat (b * 2 ^ 1074)
      = Int.ofNat ((a - b) * 2 ^ 1074) := by
    rw [Nat.sub_mul]
    exact (Int.ofNat_sub (Nat.mul_le_mul_right _ hb)).symm
  rw [hdiff]
  exact JsNum.ofInt_mul_two_pow 1074 (by omega) (by decide)

theorem JsNum.whole_le_of_gt_false {a b : Nat}
    (h : (JsNum.whole b).gt (JsNum.whole a) = false) : b ≤ a := by
  unfold JsNum.whole at h
  simp only [JsNum.gt, JsNum.lt, decide_eq_false_iff_not, not_lt] at h
  have h1 : b * 2 ^ 1074 ≤ a * 2 ^ 1074 := Int.ofNat_le.1 h
  exact Nat.le_of_mul_le_mul_right h1 (by positivity)

/-! ### The map of accounts -/

theorem AccountMap.mem_values_of_get {m : AccountMap} {key : String} {a : BankAccount}
    (h : AccountMap.get m key = some a) : a ∈ AccountMap.values m := by
  induction m with
  | nil => simp [AccountMap.get] at h
  | cons p rest ih =>
    obtain ⟨k, a0⟩ := p
    simp only [AccountMap.get] at h
    by_cases hk : k = key
    · rw [if_pos hk] at h
      simp only [Option.some.injEq] at h
      simp [AccountMap.values, h]
    · rw [if_neg hk] at h
      have := ih h
      simp only [AccountMap.values, List.map_cons, List.mem_cons] at this ⊢
      exact Or.inr this

theorem AccountMap.mem_values_set {m : AccountMap} {key : String} {v a : BankAccount}
    (h : a ∈ AccountMap.values (AccountMap.set m key v)) : a ∈ AccountMap.values m ∨ a = v := by
  induction m with
  | nil => simpa [AccountMap.set, AccountMap.values] using h
  | cons p rest ih =>
    obtain ⟨k, a0⟩ := p
    simp only [AccountMap.set] at h
    by_cases hk : k = key
    · rw [if_pos hk] at h
      simp only [AccountMap.values, List.map_cons, List.mem_cons] at h ⊢
      rcases h with h | h
      · exact Or.inr h
      · exact Or.inl (Or.inr h)
    · rw [if_neg hk] at h
      simp only [AccountMap.values, List.map_cons, List.mem_cons] at h ih ⊢
      rcases h with h | h
      · exact Or.inl (Or.inl h)
      · rcases ih h with h | h
        · exact Or.inl (Or.inr h)
        · exact Or.inr h

theorem AccountMap.mem_values_setBalance {m : AccountMap} {key : String} {b : JsNum}
    {a : BankAccount} (h : a ∈ AccountMap.values (AccountMap.setBalance m key b)) :
    a ∈ AccountMap.values m ∨ a.balance = b := by
  induction m with
  | nil => simp [AccountMap.setBalance, AccountMap.values] at h
  | cons p rest ih =>
    obtain ⟨k, a0⟩ := p
    simp only [AccountMap.setBalance] at h
    by_cases hk : k = key
    · rw [if_pos hk] at h
      simp only [AccountMap.values, List.map_cons, List.mem_cons] at h ⊢
      rcases h with h | h
      · exact Or.inr (by rw [h])
      · exact Or.inl (Or.inr h)
    · rw [if_neg hk] at h
      simp only [AccountMap.values, List.map_cons, List.mem_cons] at h ih ⊢
      rcases h with h | h
      · exact Or.inl (Or.inl h)
      · rcases ih h with h | h
        · exact Or.inl (Or.inr h)
        · exact Or.inr h

/-! ### What each operation does when it returns and when it throws -/

theorem BankSystem.requireAccount_ok {self : BankSystem} {accountNo : String}
    {acc : BankAccount} (h : self._requireAccount accountNo = Except.ok acc) :
    self.accounts.get (trim accountNo) = some acc := by
  unfold BankSystem._requireAccount at h
  split at h
  · rename_i a ha
    simp only [Except.ok.injEq] at h
    rw [ha, h]
  · simp at h

theorem BankSystem.requireAccount_of_get {self : BankSystem} {accountNo : String}
    {acc : BankAccount} (h : self.accounts.get (trim accountNo) = some acc) :
    self._requireAccount accountNo = Except.ok acc := by
  unfold BankSystem._requireAccount
  rw [h]

theorem BankSystem.createAccount_error {H : Host} {self : BankSystem} {holderName : String}
    {initialBalance : JsVal} {isKYCVerified : Bool} {createdAt : Nat} {timestamp e : String}
    (h : (self.createAccount H holderName initialBalance isKYCVerified createdAt timestamp).1
      = Except.error e) :
    (self.createAccount H holderName initialBalance isKYCVerified createdAt timestamp).2
      = self := by
  unfold BankSystem.createAccount at h ⊢
  simp only at h ⊢
  split_ifs at h ⊢ <;> simp_all

theorem BankSystem.createAccount_ok {H : Host} {self : BankSystem} {holderName : String}
    {initialBalance : JsVal} {isKYCVerified : Bool} {createdAt : Nat} {timestamp : String}
    {account : BankAccount}
    (h : (self.createAccount H holderName initialBalance isKYCVerified createdAt timestamp).1
      = Except.ok account) :
    trim holderName ≠ "" ∧ (Number H initialBalance).isNaN = false ∧
    (Number H initialBalance).lt JsNum.zero = false ∧
    account =
      { accountNo := "ACC-" ++ toString (self._counter + 1)
        holderName := trim holderName
        balance := Number H initialBalance
        isKYCVerified := isKYCVerified
        createdAt := createdAt } ∧
    (self.createAccount H holderName initialBalance isKYCVerified createdAt timestamp).2 =
      { accounts := self.accounts.set account.accountNo account
        transactionLog :=
          { id := self.transactionLog.length + 1
            timestamp := timestamp
            type := "CREATE_ACCOUNT"
            details := "Account " ++ account.accountNo ++ " created for \"" ++ trim holderName
              ++ "\". Balance: ₹" ++ initialBalance.text H ++ ". KYC: "
              ++ (if isKYCVerified then "Verified" else "Not Verified") ++ "."
            status := "SUCCESS" } :: self.transactionLog
        _counter := self._counter + 1 } := by
  unfold BankSystem.createAccount at h ⊢
  simp only at h ⊢
  by_cases h1 : trim holderName = ""
  · rw [if_pos h1] at h
    simp at h
  · by_cases h2 : ((Number H initialBalance).isNaN || (Number H initialBalance).lt JsNum.zero)
        = true
    · rw [if_neg h1, if_pos h2] at h
      simp at h
    · rw [if_neg h1, if_neg h2] at h ⊢
      simp only [Bool.or_eq_true, not_or, Bool.not_eq_true] at h2
      simp only [BankSystem._generateAccountNo, BankSystem._log, Except.ok.injEq] at h ⊢
      subst h
      exact ⟨h1, h2.1, h2.2, rfl, rfl⟩

theorem BankSystem.deposit_error {H : Host} {self : BankSystem} {accountNo : String}
    {amount : JsVal} {timestamp e : String}
    (h : (self.deposit H accountNo amount timestamp).1 = Except.error e) :
    (self.deposit H accountNo amount timestamp).2 = self := by
  unfold BankSystem.deposit at h ⊢
  simp only at h ⊢
  by_cases h1 : ((Number H amount).isNaN || (Number H amount).le JsNum.zero) = true
  · rw [if_pos h1]
  · rw [if_neg h1] at h ⊢
    cases hr : self._requireAccount accountNo with
    | error e1 => rfl
    | ok acc => rw [hr] at h; simp at h

theorem BankSystem.deposit_ok {H : Host} {self : BankSystem} {accountNo : String}
    {amount : JsVal} {timestamp : String} {acc1 : BankAccount}
    (h : (self.deposit H accountNo amount timestamp).1 = Except.ok acc1) :
    ∃ acc : BankAccount, self.accounts.get (trim accountNo) = some acc ∧
    (Number H amount).isNaN = false ∧ (Number H amount).le JsNum.zero = false ∧
    acc1 = { acc with balance := acc.balance.add (Number H amount) } ∧
    (self.deposit H accountNo amount timestamp).2 =
      { accounts := self.accounts.setBalance (trim accountNo) acc1.balance
        transactionLog :=
          { id := self.transactionLog.length + 1
            timestamp := timestamp
            type := "DEPOSIT"
            details := "₹" ++ H.numberToString (Number H amount) ++ " deposited to "
              ++ accountNo ++ " (" ++ acc1.holderName ++ "). New balance: ₹"
              ++ H.numberToString acc1.balance ++ "."
            status := "SUCCESS" } :: self.transactionLog
        _counter := self._counter } := by
  unfold BankSystem.deposit at h ⊢
  simp only at h ⊢
  by_cases h1 : ((Number H amount).isNaN || (Number H amount).le JsNum.zero) = true
  · rw [if_pos h1] at h
    simp at h
  · rw [if_neg h1] at h ⊢
    simp only [Bool.or_eq_true, not_or, Bool.not_eq_true] at h1
    cases hr : self._requireAccount accountNo with
    | error e1 => rw [hr] at h; simp at h
    | ok acc =>
      rw [hr] at h
      simp only [Except.ok.injEq] at h
      subst h
      exact ⟨acc, BankSystem.requireAccount_ok hr, h1.1, h1.2, rfl, rfl⟩

theorem BankSystem.withdraw_error {H : Host} {self : BankSystem} {accountNo : String}
    {amount : JsVal} {timestamp e : String}
    (h : (self.withdraw H accountNo amount timestamp).1 = Except.error e) :
    (self.withdraw H accountNo amount timestamp).2 = self := by
  unfold BankSystem.withdraw at h ⊢
  simp only at h ⊢
  by_cases h1 : ((Number H amount).isNaN || (Number H amount).le JsNum.zero) = true
  · rw [if_pos h1]
  · rw [if_neg h1] at h ⊢
    cases hr : self._requireAccount accountNo with
    | error e1 => rfl
    | ok acc =>
      rw [hr] at h
      simp only at h ⊢
      by_cases h2 : (Number H amount).gt acc.balance = true
      · rw [if_pos h2]
      · rw [if_neg h2] at h
        simp at h

theorem BankSystem.withdraw_ok {H : Host} {self : BankSystem} {accountNo : String}
    {amount : JsVal} {timestamp : String} {acc1 : BankAccount}
    (h : (self.withdraw H accountNo amount timestamp).1 = Except.ok acc1) :
    ∃ acc : BankAccount, self.accounts.get (trim accountNo) = some acc ∧
    (Number H amount).isNaN = false ∧ (Number H amount).le JsNum.zero = false ∧
    (Number H amount).gt acc.balance = false ∧
    acc1 = { acc with balance := acc.balance.sub (Number H amount) } ∧
    (self.withdraw H accountNo amount timestamp).2 =
      { accounts := self.accounts.setBalance (trim accountNo) acc1.balance
        transactionLog :=
          { id := self.transactionLog.length + 1
            timestamp := timestamp
            type := "WITHDRAWAL"
            details := "₹" ++ H.numberToString (Number H amount) ++ " withdrawn from "
              ++ accountNo ++ " (" ++ acc1.holderName ++ "). New balance: ₹"
              ++ H.numberToString acc1.balance ++ "."
            status := "SUCCESS" } :: self.transactionLog
        _counter := self._counter } := by
  unfold BankSystem.withdraw at h ⊢
  simp only at h ⊢
  by_cases h1 : ((Number H amount).isNaN || (Number H amount).le JsNum.zero) = true
  · rw [if_pos h1] at h
    simp at h
  · rw [if_neg h1] at h ⊢
    simp only [Bool.or_eq_true, not_or, Bool.not_eq_true] at h1
    cases hr : self._requireAccount accountNo with
    | error e1 => rw [hr] at h; simp at h
    | ok acc =>
      rw [hr] at h
      simp only at h ⊢
      by_cases h2 : (Number H amount).gt acc.balance = true
      · rw [if_pos h2] at h
        simp at h
      · rw [if_neg h2] at h ⊢
        simp only [Except.ok.injEq] at h
        subst h
        simp only [Bool.not_eq_true] at h2
        exact ⟨acc, BankSystem.requireAccount_ok hr, h1.1, h1.2, h2, rfl, rfl⟩

theorem BankSystem.transferMoney_error {H : Host} {self : BankSystem}
    {senderAccountNo receiverAccountNo : String} {amount : JsVal} {timestamp e : String}
    (h : (self.transferMoney H senderAccountNo receiverAccountNo amount timestamp).1
      = Except.error e) :
    (self.transferMoney H senderAccountNo receiverAccountNo amount timestamp).2 = self := by
  unfold BankSystem.transferMoney at h ⊢
  simp only at h ⊢
  by_cases h1 : ((Number H amount).isNaN || (Number H amount).le JsNum.zero) = true
  · rw [if_pos h1]
  · rw [if_neg h1] at h ⊢
    by_cases h2 : trim senderAccountNo = trim receiverAccountNo
    · rw [if_pos h2]
    · rw [if_neg h2] at h ⊢
      cases hs : self._requireAccount senderAccountNo with
      | error e1 => rfl
      | ok sender =>
        rw [hs] at h
        simp only at h ⊢
        cases hr : self._requireAccount receiverAccountNo with
        | error e1 => rfl
        | ok receiver =>
          rw [hr] at h
          simp only at h ⊢
          by_cases h3 : (!sender.isKYCVerified) = true
          · rw [if_pos h3]
          · rw [if_neg h3] at h ⊢
            by_cases h4 : (Number H amount).gt sender.balance = true
            · rw [if_pos h4]
            · rw [if_neg h4] at h
              simp at h

theorem BankSystem.transferMoney_ok {H : Host} {self : BankSystem}
    {senderAccountNo receiverAccountNo : String} {amount : JsVal} {timestamp : String}
    {t : Transfer}
    (h : (self.transferMoney H senderAccountNo receiverAccountNo amount timestamp).1
      = Except.ok t) :
    ∃ sender receiver : BankAccount,
    self.accounts.get (trim senderAccountNo) = some sender ∧
    self.accounts.get (trim receiverAccountNo) = some receiver ∧
    trim senderAccountNo ≠ trim receiverAccountNo ∧
    (Number H amount).isNaN = false ∧ (Number H amount).le JsNum.zero = false ∧
    sender.isKYCVerified = true ∧ (Number H amount).gt sender.balance = false ∧
    t.sender = { sender with balance := sender.balance.sub (Number H amount) } ∧
    t.receiver = { receiver with balance := receiver.balance.add (Number H amount) } ∧
    (self.transferMoney H senderAccountNo receiverAccountNo amount timestamp).2 =
      { accounts :=
          (self.accounts.setBalance (trim senderAccountNo) t.sender.balance).setBalance
            (trim receiverAccountNo) t.receiver.balance
        transactionLog :=
          { id := self.transactionLog.length + 1
            timestamp := timestamp
            type := "TRANSFER"
            details := "₹" ++ H.numberToString (Number H amount) ++ " transferred from "
              ++ senderAccountNo ++ " (" ++ t.sender.holderName ++ ") to " ++ receiverAccountNo
              ++ " (" ++ t.receiver.holderName ++ "). " ++ "Sender balance: ₹"
              ++ H.numberToString t.sender.balance ++ ". Receiver balance: ₹"
              ++ H.numberToString t.receiver.balance ++ "."
            status := "SUCCESS" } :: self.transactionLog
        _counter := self._counter } := by
  unfold BankSystem.transferMoney at h ⊢
  simp only at h ⊢
  by_cases h1 : ((Number H amount).isNaN || (Number H amount).le JsNum.zero) = true
  · rw [if_pos h1] at h
    simp at h
  · rw [if_neg h1] at h ⊢
    simp only [Bool.or_eq_true, not_or, Bool.not_eq_true] at h1
    by_cases h2 : trim senderAccountNo = trim receiverAccountNo
    · rw [if_pos h2] at h
      simp at h
    · rw [if_neg h2] at h ⊢
      cases hs : self._requireAccount senderAccountNo with
      | error e1 => rw [hs] at h; simp at h
      | ok sender =>
        rw [hs] at h
        simp only at h ⊢
        cases hr : self._requireAccount receiverAccountNo with
        | error e1 => rw [hr] at h; simp at h
        | ok receiver =>
          rw [hr] at h
          simp only at h ⊢
          by_cases h3 : (!sender.isKYCVerified) = true
          · rw [if_pos h3] at h
            simp at h
          · rw [if_neg h3] at h ⊢
            by_cases h4 : (Number H amount).gt sender.balance = true
            · rw [if_pos h4] at h
              simp at h
            · rw [if_neg h4] at h ⊢
              simp only [Except.ok.injEq] at h
              subst h
              simp only [Bool.not_eq_true, Bool.not_eq_true', Bool.not_eq_false] at h3 h4
              exact ⟨sender, receiver, BankSystem.requireAccount_ok hs,
                BankSystem.requireAccount_ok hr, h2, h1.1, h1.2, h3, h4, rfl, rfl, rfl⟩

/-! ### C1: balances never go negative -/

theorem BankSystem.balancesNonNegative_new : BankSystem.new.balancesNonNegative := by
  intro acc hacc
  simp [BankSystem.new, BankSystem.getAllAccounts, AccountMap.values] at hacc

theorem BankSystem.balancesNonNegative_setBalance {self : BankSystem} {key : String}
    {b : JsNum} {log : List LogEntry} {n : Nat} (hinv : self.balancesNonNegative)
    (hb : b.ge JsNum.zero = true) :
    BankSystem.balancesNonNegative
      { accounts := self.accounts.setBalance key b, transactionLog := log, _counter := n } := by
  intro acc hacc
  rcases AccountMap.mem_values_setBalance hacc with h | h
  · exact hinv acc h
  · rw [h]; exact hb

/-- One call with a finite amount keeps all balances non-negative. -/
theorem BankSystem.balancesNonNegative_call (H : Host) (self : BankSystem) (c : Call)
    (hfin : c.finiteAmount H = true) (hinv : self.balancesNonNegative) :
    (self.call H c).2.balancesNonNegative := by
  cases c with
  | createAccount holderName initialBalance isKYCVerified createdAt timestamp =>
    simp only [BankSystem.call]
    cases hres : (self.createAccount H holderName initialBalance isKYCVerified createdAt
      timestamp).1 with
    | error e => rw [BankSystem.createAccount_error hres]; exact hinv
    | ok account =>
      obtain ⟨_, hnan, hlt, hacc, hst⟩ := BankSystem.createAccount_ok hres
      rw [hst]
      intro acc hmem
      rcases AccountMap.mem_values_set hmem with h | h
      · exact hinv acc h
      · rw [h, hacc]
        simp only [Call.finiteAmount, Call.amount] at hfin
        obtain ⟨k, hk⟩ := (JsNum.isFinite_iff _).1 hfin
        rw [hk] at hlt ⊢
        simpa [JsNum.ge, JsNum.le, JsNum.lt, JsNum.zero] using hlt
  | deposit accountNo amount timestamp =>
    simp only [BankSystem.call]
    cases hres : (self.deposit H accountNo amount timestamp).1 with
    | error e => rw [BankSystem.deposit_error hres]; exact hinv
    | ok acc1 =>
      obtain ⟨acc, hget, _, hle, hacc, hst⟩ := BankSystem.deposit_ok hres
      rw [hst]
      apply BankSystem.balancesNonNegative_setBalance hinv
      simp only [Call.finiteAmount, Call.amount] at hfin
      obtain ⟨k, hk⟩ := (JsNum.isFinite_iff _).1 hfin
      rw [hacc, hk]
      rw [hk] at hle
      exact JsNum.add_ge_zero (hinv acc (AccountMap.mem_values_of_get hget)) hle
  | withdraw accountNo amount timestamp =>
    simp only [BankSystem.call]
    cases hres : (self.withdraw H accountNo amount timestamp).1 with
    | error e => rw [BankSystem.withdraw_error hres]; exact hinv
    | ok acc1 =>
      obtain ⟨acc, hget, _, _, hgt, hacc, hst⟩ := BankSystem.withdraw_ok hres
      rw [hst]
      apply BankSystem.balancesNonNegative_setBalance hinv
      simp only [Call.finiteAmount, Call.amount] at hfin
      obtain ⟨k, hk⟩ := (JsNum.isFinite_iff _).1 hfin
      rw [hacc, hk]
      rw [hk] at hgt
      exact JsNum.sub_ge_zero (hinv acc (AccountMap.mem_values_of_get hget)) hgt
  | transferMoney senderAccountNo receiverAccountNo amount timestamp =>
    simp only [BankSystem.call]
    cases hres : (self.transferMoney H senderAccountNo receiverAccountNo amount timestamp).1 with
    | error e => rw [BankSystem.transferMoney_error hres]; exact hinv
    | ok t =>
      obtain ⟨sender, receiver, hs, hr, _, _, hle, _, hgt, hts, htr, hst⟩ :=
        BankSystem.transferMoney_ok hres
      rw [hst]
      simp only [Call.finiteAmount, Call.amount] at hfin
      obtain ⟨k, hk⟩ := (JsNum.isFinite_iff _).1 hfin
      rw [hk] at hle hgt
      have h1 : t.sender.balance.ge JsNum.zero = true := by
        rw [hts, hk]
        exact JsNum.sub_ge_zero (hinv sender (AccountMap.mem_values_of_get hs)) hgt
      have h2 : t.receiver.balance.ge JsNum.zero = true := by
        rw [htr, hk]
        exact JsNum.add_ge_zero (hinv receiver (AccountMap.mem_values_of_get hr)) hle
      have hmid : BankSystem.balancesNonNegative
          { accounts := self.accounts.setBalance (trim senderAccountNo) t.sender.balance
            transactionLog := self.transactionLog
            _counter := self._counter } :=
        BankSystem.balancesNonNegative_setBalance hinv h1
      exact BankSystem.balancesNonNegative_setBalance hmid h2
  | clearLog => exact hinv

theorem BankSystem.balancesNonNegative_calls (H : Host) (calls : List Call) :
    ∀ self : BankSystem, (∀ c ∈ calls, c.finiteAmount H = true) → self.balancesNonNegative →
      (self.calls H calls).balancesNonNegative := by
  induction calls with
  | nil => intro self _ hinv; exact hinv
  | cons c rest ih =>
    intro self hfin hinv
    simp only [BankSystem.calls]
    apply ih
    · intro c1 hc1
      exact hfin c1 (List.mem_cons_of_mem _ hc1)
    · exact BankSystem.balancesNonNegative_call H self c (hfin c (List.mem_cons_self _ _)) hinv

/-- C1: in every ledger reached from a new `BankSystem` by a finite sequence of
`createAccount`, `deposit`, `withdraw` and `transferMoney` calls (and log
resets), each succeeding or failing, with finite amounts, every account has
`balance >= 0`. -/
theorem C1_balance_never_negative (H : Host) (calls : List Call)
    (hfin : ∀ c ∈ calls, c.finiteAmount H = true) :
    ∀ acc ∈ (BankSystem.new.calls H calls).getAllAccounts,
      acc.balance.ge JsNum.zero = true :=
  BankSystem.balancesNonNegative_calls H calls BankSystem.new hfin
    BankSystem.balancesNonNegative_new

set_option exponentiation.threshold 4096 in
set_option maxRecDepth 8000 in
/-- C1 at the seed accounts of `app.js` followed by a deposit, an overdrawing
withdrawal (which fails), a withdrawal and a transfer. -/
theorem C1_balance_never_negative_witness :
    (∀ c ∈
        [Call.createAccount "Alice Johnson" (JsVal.num (JsNum.whole 50000)) true 0 "t0",
         Call.createAccount "Bob Smith" (JsVal.num (JsNum.whole 15000)) false 0 "t1",
         Call.deposit "ACC-1002" (JsVal.str "250") "t2",
         Call.withdraw "ACC-1002" (JsVal.str "20000") "t3",
         Call.withdraw "ACC-1002" (JsVal.str "15250") "t4",
         Call.transferMoney "ACC-1001" "ACC-1002" (JsVal.num (JsNum.whole 50000)) "t5"],
      c.finiteAmount exampleHost = true) ∧
    ∀ acc ∈ (BankSystem.new.calls exampleHost
        [Call.createAccount "Alice Johnson" (JsVal.num (JsNum.whole 50000)) true 0 "t0",
         Call.createAccount "Bob Smith" (JsVal.num (JsNum.whole 15000)) false 0 "t1",
         Call.deposit "ACC-1002" (JsVal.str "250") "t2",
         Call.withdraw "ACC-1002" (JsVal.str "20000") "t3",
         Call.withdraw "ACC-1002" (JsVal.str "15250") "t4",
         Call.transferMoney "ACC-1001" "ACC-1002" (JsVal.num (JsNum.whole 50000)) "t5"]
        ).getAllAccounts,
      acc.balance.ge JsNum.zero = true :=
  ⟨by decide, C1_balance_never_negative exampleHost _ (by decide)⟩

/-! ### C2: a failed call changes nothing -/

/-- C2: when a call of `createAccount`, `deposit`, `withdraw` or `transferMoney`
throws, the ledger after the call is the ledger before it: the accounts with all
their fields, the transaction log and the counter. -/
theorem C2_failed_call_changes_nothing (H : Host) (self : BankSystem) (c : Call) (e : String)
    (h : (self.call H c).1 = Except.error e) : (self.call H c).2 = self := by
  cases c with
  | createAccount holderName initialBalance isKYCVerified createdAt timestamp =>
    simp only [BankSystem.call] at h ⊢
    cases hres : (self.createAccount H holderName initialBalance isKYCVerified createdAt
      timestamp).1 with
    | error e1 => exact BankSystem.createAccount_error hres
    | ok account => rw [hres] at h; simp [Except.map] at h
  | deposit accountNo amount timestamp =>
    simp only [BankSystem.call] at h ⊢
    cases hres : (self.deposit H accountNo amount timestamp).1 with
    | error e1 => exact BankSystem.deposit_error hres
    | ok acc1 => rw [hres] at h; simp [Except.map] at h
  | withdraw accountNo amount timestamp =>
    simp only [BankSystem.call] at h ⊢
    cases hres : (self.withdraw H accountNo amount timestamp).1 with
    | error e1 => exact BankSystem.withdraw_error hres
    | ok acc1 => rw [hres] at h; simp [Except.map] at h
  | transferMoney senderAccountNo receiverAccountNo amount timestamp =>
    simp only [BankSystem.call] at h ⊢
    cases hres : (self.transferMoney H senderAccountNo receiverAccountNo amount timestamp).1 with
    | error e1 => exact BankSystem.transferMoney_error hres
    | ok t => rw [hres] at h; simp [Except.map] at h
  | clearLog => simp [BankSystem.call] at h

set_option exponentiation.threshold 4096 in
set_option maxRecDepth 8000 in
/-- C2 at a transfer from the second seed account of `app.js`, which is not KYC
verified: the call throws and the ledger is the one before. -/
theorem C2_failed_call_changes_nothing_witness :
    ((BankSystem.new.calls exampleHost
        [Call.createAccount "Alice Johnson" (JsVal.num (JsNum.whole 50000)) true 0 "t0",
         Call.createAccount "Bob Smith" (JsVal.num (JsNum.whole 15000)) false 0 "t1"]).call
      exampleHost (Call.transferMoney "ACC-1002" "ACC-1001" (JsVal.str "100") "t2")).1
      = Except.error
        "Transfer failed: Sender account ACC-1002 (Bob Smith) is not KYC verified." ∧
    ((BankSystem.new.calls exampleHost
        [Call.createAccount "Alice Johnson" (JsVal.num (JsNum.whole 50000)) true 0 "t0",
         Call.createAccount "Bob Smith" (JsVal.num (JsNum.whole 15000)) false 0 "t1"]).call
      exampleHost (Call.transferMoney "ACC-1002" "ACC-1001" (JsVal.str "100") "t2")).2
      = BankSystem.new.calls exampleHost
        [Call.createAccount "Alice Johnson" (JsVal.num (JsNum.whole 50000)) true 0 "t0",
         Call.createAccount "Bob Smith" (JsVal.num (JsNum.whole 15000)) false 0 "t1"] :=
  ⟨by rfl, C2_failed_call_changes_nothing exampleHost _ _
    "Transfer failed: Sender account ACC-1002 (Bob Smith) is not KYC verified." (by rfl)⟩

/-! ### C3: what a transfer does to the two balances -/

theorem AccountMap.get_setBalance_self (m : AccountMap) (key : String) (b : JsNum) :
    AccountMap.get (AccountMap.setBalance m key b) key
      = (AccountMap.get m key).map (fun a => { a with balance := b }) := by
  induction m with
  | nil => rfl
  | cons p rest ih =>
    obtain ⟨k, a0⟩ := p
    by_cases hk : k = key
    · simp [AccountMap.setBalance, AccountMap.get, hk]
    · simp [AccountMap.setBalance, AccountMap.get, hk, ih]

theorem AccountMap.get_setBalance_other (m : AccountMap) {key other : String} (b : JsNum)
    (hne : other ≠ key) :
    AccountMap.get (AccountMap.setBalance m key b) other = AccountMap.get m other := by
  induction m with
  | nil => rfl
  | cons p rest ih =>
    obtain ⟨k, a0⟩ := p
    simp only [AccountMap.setBalance]
    by_cases hk : k = key
    · have hko : k ≠ other := by rw [hk]; exact fun h => hne h.symm
      rw [if_pos hk]
      simp only [AccountMap.get]
      rw [if_neg hko, if_neg hko]
    · rw [if_neg hk]
      simp only [AccountMap.get]
      by_cases hko : k = other
      · rw [if_pos hko, if_pos hko]
      · rw [if_neg hko, if_neg hko, ih]

set_option exponentiation.threshold 4096 in
set_option maxRecDepth 8000 in
/-- The claim C3 fails at a transfer of `2^53` from an account holding
`2^53 + 2` to an account holding `1`: the transfer succeeds, the receiver ends
with `2^53` and not with `2^53 + 1`, which is not a binary64 value, and the sum
of the two balances, `9007199254740996` before as JavaScript computes it, is
`9007199254740994` after. -/
theorem C3_counterexample :
    ∃ t : Transfer,
      (largeLedger.transferMoney exampleHost "ACC-1001" "ACC-1002"
        (JsVal.num (JsNum.whole 9007199254740992)) "t1").1 = Except.ok t ∧
      largeLedger.getAccount "ACC-1001" = some
        { accountNo := "ACC-1001", holderName := "Dana"
          balance := JsNum.whole 9007199254740994, isKYCVerified := true, createdAt := 0 } ∧
      largeLedger.getAccount "ACC-1002" = some
        { accountNo := "ACC-1002", holderName := "Eli"
          balance := JsNum.whole 1, isKYCVerified := true, createdAt := 0 } ∧
      t.sender.balance = JsNum.whole 2 ∧
      t.receiver.balance = JsNum.whole 9007199254740992 ∧
      (JsNum.whole 9007199254740994).add (JsNum.whole 1) = JsNum.whole 9007199254740996 ∧
      t.sender.balance.add t.receiver.balance = JsNum.whole 9007199254740994 ∧
      (JsNum.whole 9007199254740994).add (JsNum.whole 1)
        ≠ t.sender.balance.add t.receiver.balance := by
  refine ⟨_, rfl, ?_, ?_, ?_, ?_, ?_, ?_, ?_⟩ <;> decide

/-- C3, amended: after a successful `transferMoney(A, B, x)` the sender's
balance is the binary64 difference of its balance before and `x`, the
receiver's balance is the binary64 sum of its balance before and `x`, and these
are the balances stored in the ledger and returned.  When neither result was
rounded, `balanceBefore(A) + balanceBefore(B) == balanceAfter(A) +
balanceAfter(B)`; this is so in particular when the two balances and `x` are
whole numbers, the sender's balance is below `2^53` and the receiver's new
balance is below `2^53`. -/
theorem C3_transfer_moves_amount (H : Host) (self : BankSystem)
    (senderAccountNo receiverAccountNo : String) (amount : JsVal) (timestamp : String)
    (t : Transfer)
    (h : (self.transferMoney H senderAccountNo receiverAccountNo amount timestamp).1
      = Except.ok t) :
    ∃ sender receiver : BankAccount,
      self.getAccount senderAccountNo = some sender ∧
      self.getAccount receiverAccountNo = some receiver ∧
      (self.transferMoney H senderAccountNo receiverAccountNo amount timestamp).2.getAccount
        senderAccountNo = some t.sender ∧
      (self.transferMoney H senderAccountNo receiverAccountNo amount timestamp).2.getAccount
        receiverAccountNo = some t.receiver ∧
      t.sender.balance = sender.balance.sub (Number H amount) ∧
      t.receiver.balance = receiver.balance.add (Number H amount) ∧
      (∀ a b x : Int, sender.balance = JsNum.fin a → receiver.balance = JsNum.fin b →
        Number H amount = JsNum.fin x →
        t.sender.balance = JsNum.fin (a - x) → t.receiver.balance = JsNum.fin (b + x) →
        sender.balance.add receiver.balance = t.sender.balance.add t.receiver.balance) ∧
      (∀ a b x : Nat, sender.balance = JsNum.whole a → receiver.balance = JsNum.whole b →
        Number H amount = JsNum.whole x → a < 2 ^ 53 → b + x < 2 ^ 53 →
        t.sender.balance = JsNum.whole (a - x) ∧ t.receiver.balance = JsNum.whole (b + x) ∧
        sender.balance.add receiver.balance
          = t.sender.balance.add t.receiver.balance) := by
  obtain ⟨sender, receiver, hs, hr, hne, _, _, _, hgt, hts, htr, hst⟩ :=
    BankSystem.transferMoney_ok h
  refine ⟨sender, receiver, hs, hr, ?_, ?_, ?_, ?_, ?_, ?_⟩
  · rw [hst]
    simp only [BankSystem.getAccount]
    rw [AccountMap.get_setBalance_other _ _ hne, AccountMap.get_setBalance_self, hs, hts]
    rfl
  · rw [hst]
    simp only [BankSystem.getAccount]
    rw [AccountMap.get_setBalance_self,
      AccountMap.get_setBalance_other _ _ (fun e => hne e.symm), hr, htr]
    rfl
  · rw [hts]
  · rw [htr]
  · intro a b x ha hb _ hsa hrb
    rw [ha, hb, hsa, hrb]
    simp only [JsNum.add]
    congr 1
    ring
  · intro a b x ha hb hx ha53 hbx53
    rw [hx, ha] at hgt
    have hxa : x ≤ a := JsNum.whole_le_of_gt_false hgt
    have h1 : t.sender.balance = JsNum.whole (a - x) := by
      rw [hts]
      simp only
      rw [ha, hx]
      exact JsNum.sub_whole ha53 hxa
    have h2 : t.receiver.balance = JsNum.whole (b + x) := by
      rw [htr]
      simp only
      rw [hb, hx]
      exact JsNum.add_whole hbx53
    refine ⟨h1, h2, ?_⟩
    rw [h1, h2, ha, hb]
    unfold JsNum.whole
    simp only [JsNum.add]
    have hn : a * 2 ^ 1074 + b * 2 ^ 1074 = (a - x) * 2 ^ 1074 + (b + x) * 2 ^ 1074 := by
      have hab : a + b = a - x + (b + x) := by omega
      rw [← Nat.add_mul, ← Nat.add_mul, hab]
    exact congrArg (fun n => JsNum.ofInt (Int.ofNat n)) hn

set_option exponentiation.threshold 4096 in
set_option maxRecDepth 8000 in
/-- C3, amended, at a transfer of `500` from the first to the third seed
account of `app.js`: the balances `50000` and `30000` become `49500` and
`30500`, and the sum is `80000` before and after. -/
theorem C3_transfer_moves_amount_witness :
    (seedLedger.transferMoney exampleHost "ACC-1001" "ACC-1003" (JsVal.str "500") "t1").1
      = Except.ok
        { sender :=
            { accountNo := "ACC-1001", holderName := "Alice Johnson"
              balance := JsNum.whole 49500, isKYCVerified := true, createdAt := 0 }
          receiver :=
            { accountNo := "ACC-1003", holderName := "Carol Davis"
              balance := JsNum.whole 30500, isKYCVerified := true, createdAt := 0 } } ∧
    (JsNum.whole 50000).add (JsNum.whole 30000) = JsNum.whole 80000 ∧
    (JsNum.whole 49500).add (JsNum.whole 30500) = JsNum.whole 80000 ∧
    ∃ sender receiver : BankAccount,
      seedLedger.getAccount "ACC-1001" = some sender ∧
      seedLedger.getAccount "ACC-1003" = some receiver ∧
      (seedLedger.transferMoney exampleHost "ACC-1001" "ACC-1003" (JsVal.str "500")
        "t1").2.getAccount "ACC-1001" = some
          { accountNo := "ACC-1001", holderName := "Alice Johnson"
            balance := JsNum.whole 49500, isKYCVerified := true, createdAt := 0 } ∧
      (seedLedger.transferMoney exampleHost "ACC-1001" "ACC-1003" (JsVal.str "500")
        "t1").2.getAccount "ACC-1003" = some
          { accountNo := "ACC-1003", holderName := "Carol Davis"
            balance := JsNum.whole 30500, isKYCVerified := true, createdAt := 0 } ∧
      JsNum.whole 49500 = sender.balance.sub (Number exampleHost (JsVal.str "500")) ∧
      JsNum.whole 30500 = receiver.balance.add (Number exampleHost (JsVal.str "500")) ∧
      (∀ a b x : Int, sender.balance = JsNum.fin a → receiver.balance = JsNum.fin b →
        Number exampleHost (JsVal.str "500") = JsNum.fin x →
        JsNum.whole 49500 = JsNum.fin (a - x) → JsNum.whole 30500 = JsNum.fin (b + x) →
        sender.balance.add receiver.balance
          = (JsNum.whole 49500).add (JsNum.whole 30500)) ∧
      (∀ a b x : Nat, sender.balance = JsNum.whole a → receiver.balance = JsNum.whole b →
        Number exampleHost (JsVal.str "500") = JsNum.whole x → a < 2 ^ 53 →
        b + x < 2 ^ 53 →
        JsNum.whole 49500 = JsNum.whole (a - x) ∧ JsNum.whole 30500 = JsNum.whole (b + x) ∧
        sender.balance.add receiver.balance
          = (JsNum.whole 49500).add (JsNum.whole 30500)) :=
  ⟨by rfl, by decide, by decide,
    C3_transfer_moves_amount exampleHost seedLedger "ACC-1001" "ACC-1003" (JsVal.str "500")
      "t1" _ (by rfl)⟩

/-! ### C4: an unverified sender -/

/-- An amount with `amount > 0` passes the amount check of `deposit`,
`withdraw` and `transferMoney`. -/
theorem JsNum.passes_of_gt_zero {x : JsNum} (h : x.gt JsNum.zero = true) :
    (x.isNaN || x.le JsNum.zero) = false := by
  cases x with
  | fin k =>
    have hk : 0 < k := by simpa [JsNum.gt, JsNum.lt, JsNum.zero] using h
    simp only [JsNum.isNaN, JsNum.le, JsNum.zero, Bool.false_or, decide_eq_false_iff_not]
    omega
  | posInf => rfl
  | negInf => simp [JsNum.gt, JsNum.lt, JsNum.zero] at h
  | nan => simp [JsNum.gt, JsNum.lt, JsNum.zero] at h

theorem kyc_message_ne_funds_message (a b c d : String) :
    "Transfer failed: Sender account " ++ a ++ b
      ≠ "Transfer failed: Insufficient balance in " ++ c ++ d := by
  intro h
  have h1 := congrArg String.data h
  simp only [String.data_append] at h1
  have h2 := congrArg (fun l => l.get? 17) h1
  simp at h2

/-- C4: for an amount `> 0` and two existing accounts with different (trimmed)
numbers whose sender is not KYC verified, `transferMoney` throws the error that
says the sender is not KYC verified, whatever the sender's balance, and leaves
the ledger, so both balances, as it was; the error is not the one for an
insufficient balance. -/
theorem C4_unverified_sender_is_refused (H : Host) (self : BankSystem)
    (senderAccountNo receiverAccountNo : String) (amount : JsVal) (timestamp : String)
    (sender receiver : BankAccount)
    (hpos : (Number H amount).gt JsNum.zero = true)
    (hs : self.getAccount senderAccountNo = some sender)
    (hr : self.getAccount receiverAccountNo = some receiver)
    (hne : trim senderAccountNo ≠ trim receiverAccountNo)
    (hkyc : sender.isKYCVerified = false) :
    self.transferMoney H senderAccountNo receiverAccountNo amount timestamp
      = (Except.error ("Transfer failed: Sender account " ++ senderAccountNo ++ " ("
          ++ sender.holderName ++ ") is not KYC verified."), self) ∧
    (self.transferMoney H senderAccountNo receiverAccountNo amount timestamp).1
      ≠ Except.error ("Transfer failed: Insufficient balance in " ++ senderAccountNo
          ++ ". Available: ₹" ++ H.numberToString sender.balance ++ ", Requested: ₹"
          ++ H.numberToString (Number H amount) ++ ".") := by
  have hres : self.transferMoney H senderAccountNo receiverAccountNo amount timestamp
      = (Except.error ("Transfer failed: Sender account " ++ senderAccountNo ++ " ("
          ++ sender.holderName ++ ") is not KYC verified."), self) := by
    unfold BankSystem.transferMoney
    simp only
    rw [JsNum.passes_of_gt_zero hpos, if_neg hne,
      BankSystem.requireAccount_of_get hs, BankSystem.requireAccount_of_get hr]
    simp [hkyc]
  refine ⟨hres, ?_⟩
  rw [hres]
  simp only [ne_eq, Except.error.injEq]
  have := kyc_message_ne_funds_message senderAccountNo
    (" (" ++ sender.holderName ++ ") is not KYC verified.") senderAccountNo
    (". Available: ₹" ++ H.numberToString sender.balance ++ ", Requested: ₹"
          ++ H.numberToString (Number H amount) ++ ".")
  simpa [String.append_assoc] using this

set_option exponentiation.threshold 4096 in
set_option maxRecDepth 8000 in
/-- C4 at a transfer of `20000`, more than the balance `15000`, from the
unverified second seed account of `app.js` to the first. -/
theorem C4_unverified_sender_is_refused_witness :
    ((Number exampleHost (JsVal.str "20000")).gt JsNum.zero = true ∧
      seedLedger.getAccount "ACC-1002" = some
        { accountNo := "ACC-1002", holderName := "Bob Smith"
          balance := JsNum.whole 15000, isKYCVerified := false, createdAt := 0 } ∧
      seedLedger.getAccount " ACC-1001" = some
        { accountNo := "ACC-1001", holderName := "Alice Johnson"
          balance := JsNum.whole 50000, isKYCVerified := true, createdAt := 0 } ∧
      trim "ACC-1002" ≠ trim " ACC-1001") ∧
    (seedLedger.transferMoney exampleHost "ACC-1002" " ACC-1001" (JsVal.str "20000") "t1"
      = (Except.error "Transfer failed: Sender account ACC-1002 (Bob Smith) is not KYC verified.",
          seedLedger) ∧
    (seedLedger.transferMoney exampleHost "ACC-1002" " ACC-1001" (JsVal.str "20000") "t1").1
      ≠ Except.error ("Transfer failed: Insufficient balance in " ++ "ACC-1002"
          ++ ". Available: ₹" ++ exampleHost.numberToString (JsNum.whole 15000)
          ++ ", Requested: ₹"
          ++ exampleHost.numberToString (Number exampleHost (JsVal.str "20000")) ++ ".")) :=
  ⟨⟨by decide, by decide, by decide, by decide⟩,
    C4_unverified_sender_is_refused exampleHost seedLedger "ACC-1002" " ACC-1001"
      (JsVal.str "20000") "t1"
      { accountNo := "ACC-1002", holderName := "Bob Smith"
        balance := JsNum.whole 15000, isKYCVerified := false, createdAt := 0 }
      { accountNo := "ACC-1001", holderName := "Alice Johnson"
        balance := JsNum.whole 50000, isKYCVerified := true, createdAt := 0 }
      (by decide) (by decide) (by decide) (by decide) rfl⟩

/-! ### C5: a transfer to the same account -/

/-- C5: for an amount `> 0` and two account numbers that are equal after
trimming, `transferMoney` throws "Sender and receiver accounts cannot be the
same." and leaves the ledger as it was, whatever the ledger holds: the account
need not exist, and its balance and KYC flag are not looked at. -/
theorem C5_same_account_is_refused (H : Host) (self : BankSystem)
    (senderAccountNo receiverAccountNo : String) (amount : JsVal) (timestamp : String)
    (hpos : (Number H amount).gt JsNum.zero = true)
    (hsame : trim senderAccountNo = trim receiverAccountNo) :
    self.transferMoney H senderAccountNo receiverAccountNo amount timestamp
      = (Except.error "Sender and receiver accounts cannot be the same.", self) := by
  unfold BankSystem.transferMoney
  simp only
  rw [JsNum.passes_of_gt_zero hpos, if_pos hsame]
  simp

set_option exponentiation.threshold 4096 in
set_option maxRecDepth 8000 in
/-- C5 at a ledger without any account, and at the unverified second seed
account of `app.js` with an amount above its balance. -/
theorem C5_same_account_is_refused_witness :
    ((Number exampleHost (JsVal.str "20000")).gt JsNum.zero = true ∧
      trim "ACC-1002 " = trim " ACC-1002") ∧
    BankSystem.new.transferMoney exampleHost "ACC-1002 " " ACC-1002" (JsVal.str "20000") "t1"
      = (Except.error "Sender and receiver accounts cannot be the same.", BankSystem.new) ∧
    seedLedger.transferMoney exampleHost "ACC-1002 " " ACC-1002" (JsVal.str "20000") "t1"
      = (Except.error "Sender and receiver accounts cannot be the same.", seedLedger) :=
  ⟨⟨by decide, by decide⟩,
    C5_same_account_is_refused exampleHost BankSystem.new "ACC-1002 " " ACC-1002"
      (JsVal.str "20000") "t1" (by decide) (by decide),
    C5_same_account_is_refused exampleHost seedLedger "ACC-1002 " " ACC-1002"
      (JsVal.str "20000") "t1" (by decide) (by decide)⟩

/-! ### C6: account numbers -/

theorem digitChar_toNat {d : Nat} (h : d < 10) : (Nat.digitChar d).toNat - 48 = d := by
  interval_cases d <;> rfl

theorem foldl_toDigitsCore (fuel : Nat) :
    ∀ (n : Nat) (ds : List Char), n < fuel →
      (Nat.toDigitsCore 10 fuel n ds).foldl (fun acc c => 10 * acc + (c.toNat - 48)) 0
        = ds.foldl (fun acc c => 10 * acc + (c.toNat - 48)) n := by
  induction fuel with
  | zero => intro n ds h; omega
  | succ fuel ih =>
    intro n ds h
    simp only [Nat.toDigitsCore]
    by_cases h0 : n / 10 = 0
    · rw [if_pos h0]
      simp only [List.foldl_cons, Nat.mul_zero, Nat.zero_add]
      rw [digitChar_toNat (Nat.mod_lt _ (by decide))]
      congr 1
      omega
    · rw [if_neg h0, ih (n / 10) _ (by omega)]
      simp only [List.foldl_cons]
      rw [digitChar_toNat (Nat.mod_lt _ (by decide))]
      congr 1
      omega

theorem toString_nat_injective {a b : Nat} (h : toString a = toString b) : a = b := by
  have h1 : Nat.toDigits 10 a = Nat.toDigits 10 b := by
    have := congrArg String.data h
    simpa [toString, Nat.repr, List.asString] using this
  have h2 := congrArg (List.foldl (fun acc c => 10 * acc + (c.toNat - 48)) 0) h1
  simp only [Nat.toDigits] at h2
  rw [foldl_toDigitsCore _ _ _ (Nat.lt_succ_self a),
    foldl_toDigitsCore _ _ _ (Nat.lt_succ_self b)] at h2
  simpa using h2

theorem accountNo_injective {a b : Nat}
    (h : "ACC-" ++ toString a = "ACC-" ++ toString b) : a = b := by
  apply toString_nat_injective
  have h1 := congrArg String.data h
  simp only [String.data_append] at h1
  exact String.ext (List.append_cancel_left h1)

theorem AccountMap.set_of_not_mem (m : AccountMap) (key : String) (v : BankAccount)
    (h : key ∉ m.map Prod.fst) : AccountMap.set m key v = m ++ [(key, v)] := by
  induction m with
  | nil => rfl
  | cons p rest ih =>
    obtain ⟨k, a0⟩ := p
    simp only [List.map_cons, List.mem_cons, not_or] at h
    simp only [AccountMap.set]
    rw [if_neg (fun e => h.1 e.symm), ih h.2]
    rfl

theorem AccountMap.map_setBalance {β γ : Type} (f : String → β) (g : BankAccount → γ)
    (hg : ∀ (a : BankAccount) (b : JsNum), g { a with balance := b } = g a)
    (m : AccountMap) (key : String) (b : JsNum) :
    (AccountMap.setBalance m key b).map (fun p => (f p.1, g p.2))
      = m.map (fun p => (f p.1, g p.2)) := by
  induction m with
  | nil => rfl
  | cons p rest ih =>
    obtain ⟨k, a0⟩ := p
    simp only [AccountMap.setBalance]
    by_cases hk : k = key
    · rw [if_pos hk]
      simp only [List.map_cons, hg]
    · rw [if_neg hk]
      simp only [List.map_cons, ih]

theorem BankSystem.numbered_setBalance {self : BankSystem} {m : Nat} (key : String)
    (b : JsNum) (log : List LogEntry) (h : self.numbered m) :
    BankSystem.numbered
      { accounts := self.accounts.setBalance key b, transactionLog := log
        _counter := self._counter } m := by
  refine ⟨h.1, ?_⟩
  simp only
  rw [AccountMap.map_setBalance (fun k => k) (fun a => a.accountNo) (fun _ _ => rfl)]
  exact h.2

theorem BankSystem.numbered_createAccount {H : Host} {self : BankSystem} {m : Nat}
    {holderName : String} {initialBalance : JsVal} {isKYCVerified : Bool} {createdAt : Nat}
    {timestamp : String} {account : BankAccount} (h : self.numbered m)
    (hres : (self.createAccount H holderName initialBalance isKYCVerified createdAt
      timestamp).1 = Except.ok account) :
    account.accountNo = "ACC-" ++ toString (1001 + m) ∧
    (self.createAccount H holderName initialBalance isKYCVerified createdAt
      timestamp).2.numbered (m + 1) := by
  obtain ⟨_, _, _, hacc, hst⟩ := BankSystem.createAccount_ok hres
  have hno : account.accountNo = "ACC-" ++ toString (1001 + m) := by
    rw [hacc, h.1]
    have : 1000 + m + 1 = 1001 + m := by omega
    simp only [this]
  refine ⟨hno, ?_⟩
  rw [hst]
  refine ⟨by simp only [h.1]; omega, ?_⟩
  simp only
  have hfst : self.accounts.map Prod.fst
      = (List.range m).map (fun i => "ACC-" ++ toString (1001 + i)) := by
    have := congrArg (List.map Prod.fst) h.2
    simpa [List.map_map, Function.comp_def] using this
  have hnot : account.accountNo ∉ self.accounts.map Prod.fst := by
    rw [hfst, hno]
    intro hmem
    obtain ⟨i, hi, heq⟩ := List.mem_map.1 hmem
    have := accountNo_injective heq
    have := List.mem_range.1 hi
    omega
  rw [AccountMap.set_of_not_mem _ _ _ hnot, List.map_append, h.2, List.range_succ,
    List.map_append]
  simp only [List.map_cons, List.map_nil, hno]

/-- A call keeps the numbering; a `createAccount` that succeeds returns the
next number and adds one account. -/
theorem BankSystem.numbered_calls (H : Host) (calls : List Call) :
    ∀ (self : BankSystem) (m : Nat), self.numbered m →
      (self.calls H calls).numbered (m + (self.createdAccountNos H calls).length) ∧
      self.createdAccountNos H calls
        = (List.range (self.createdAccountNos H calls).length).map
            (fun i => "ACC-" ++ toString (1001 + (m + i))) := by
  induction calls with
  | nil =>
    intro self m h
    exact ⟨h, rfl⟩
  | cons c rest ih =>
    intro self m h
    cases c with
    | createAccount holderName initialBalance isKYCVerified createdAt timestamp =>
      simp only [BankSystem.calls, BankSystem.createdAccountNos, BankSystem.call]
      cases hres : (self.createAccount H holderName initialBalance isKYCVerified createdAt
        timestamp).1 with
      | error e =>
        rw [BankSystem.createAccount_error hres]
        simpa using ih self m h
      | ok account =>
        obtain ⟨hno, hnum⟩ := BankSystem.numbered_createAccount h hres
        obtain ⟨ih1, ih2⟩ := ih _ (m + 1) hnum
        simp only [List.singleton_append, List.length_cons]
        refine ⟨?_, ?_⟩
        · have : m + ((BankSystem.createdAccountNos H (self.createAccount H holderName
              initialBalance isKYCVerified createdAt timestamp).2 rest).length + 1)
              = m + 1 + (BankSystem.createdAccountNos H (self.createAccount H holderName
              initialBalance isKYCVerified createdAt timestamp).2 rest).length := by omega
          rw [this]
          exact ih1
        · rw [List.range_succ_eq_map, List.map_cons, List.map_map]
          congr 1
          rw [ih2]
          simp only [List.length_map, List.length_range]
          apply List.map_congr_left
          intro i _
          simp only [Function.comp_apply]
          have : 1001 + (m + 1 + i) = 1001 + (m + (i + 1)) := by omega
          rw [this]
    | deposit accountNo amount timestamp =>
      simp only [BankSystem.calls, BankSystem.createdAccountNos, BankSystem.call]
      apply ih
      cases hres : (self.deposit H accountNo amount timestamp).1 with
      | error e => rw [BankSystem.deposit_error hres]; exact h
      | ok acc1 =>
        obtain ⟨_, _, _, _, _, hst⟩ := BankSystem.deposit_ok hres
        rw [hst]
        exact BankSystem.numbered_setBalance _ _ _ h
    | withdraw accountNo amount timestamp =>
      simp only [BankSystem.calls, BankSystem.createdAccountNos, BankSystem.call]
      apply ih
      cases hres : (self.withdraw H accountNo amount timestamp).1 with
      | error e => rw [BankSystem.withdraw_error hres]; exact h
      | ok acc1 =>
        obtain ⟨_, _, _, _, _, _, hst⟩ := BankSystem.withdraw_ok hres
        rw [hst]
        exact BankSystem.numbered_setBalance _ _ _ h
    | transferMoney senderAccountNo receiverAccountNo amount timestamp =>
      simp only [BankSystem.calls, BankSystem.createdAccountNos, BankSystem.call]
      apply ih
      cases hres : (self.transferMoney H senderAccountNo receiverAccountNo amount
        timestamp).1 with
      | error e => rw [BankSystem.transferMoney_error hres]; exact h
      | ok t =>
        obtain ⟨_, _, _, _, _, _, _, _, _, _, _, hst⟩ := BankSystem.transferMoney_ok hres
        rw [hst]
        have hmid : BankSystem.numbered
            { accounts := self.accounts.setBalance (trim senderAccountNo) t.sender.balance
              transactionLog := self.transactionLog
              _counter := self._counter } m :=
          BankSystem.numbered_setBalance _ _ _ h
        exact BankSystem.numbered_setBalance (trim receiverAccountNo) t.receiver.balance _ hmid
    | clearLog =>
      simp only [BankSystem.calls, BankSystem.createdAccountNos, BankSystem.call]
      apply ih
      exact h

/-- C6: run any sequence of calls (the four operations, succeeding or failing,
and log resets) on a new `BankSystem`, and let `n` be the number of
`createAccount` calls that succeeded.  Then `getAllAccounts()` lists `n`
accounts whose numbers are, in this order, the numbers the successful
`createAccount` calls returned, in call order; these numbers are `ACC-1001`,
`ACC-1002`, ..., `ACC-(1000 + n)`, and they are pairwise distinct. -/
theorem C6_account_numbers_in_sequence (H : Host) (calls : List Call) :
    (BankSystem.new.calls H calls).getAllAccounts.map (fun a => a.accountNo)
      = BankSystem.new.createdAccountNos H calls ∧
    (BankSystem.new.calls H calls).getAllAccounts.length
      = (BankSystem.new.createdAccountNos H calls).length ∧
    BankSystem.new.createdAccountNos H calls
      = (List.range (BankSystem.new.createdAccountNos H calls).length).map
          (fun i => "ACC-" ++ toString (1001 + i)) ∧
    (BankSystem.new.createdAccountNos H calls).Nodup := by
  have hnew : BankSystem.new.numbered 0 := ⟨rfl, rfl⟩
  obtain ⟨h1, h2⟩ := BankSystem.numbered_calls H calls BankSystem.new 0 hnew
  simp only [Nat.zero_add] at h1 h2
  have hmap : (BankSystem.new.calls H calls).getAllAccounts.map (fun a => a.accountNo)
      = BankSystem.new.createdAccountNos H calls := by
    have := congrArg (List.map Prod.snd) h1.2
    simp only [List.map_map, Function.comp_def] at this
    rw [h2]
    simpa [BankSystem.getAllAccounts, AccountMap.values, List.map_map, Function.comp_def]
      using this
  refine ⟨hmap, ?_, h2, ?_⟩
  · have := congrArg List.length hmap
    simpa using this
  · rw [h2]
    apply List.Nodup.map _ (List.nodup_range _)
    intro a b hab
    have := accountNo_injective hab
    omega

/-! ### C7: a deposit followed by a withdrawal of the same amount -/

theorem JsNum.gt_add_self_false {b x : JsNum} (hb : b.ge JsNum.zero = true)
    (hpos : x.gt JsNum.zero = true) (hdbl : x.isDouble = true) :
    x.gt (b.add x) = false := by
  cases x with
  | fin n =>
    have hn : 0 < n := by simpa [JsNum.gt, JsNum.lt, JsNum.zero] using hpos
    simp only [JsNum.isDouble, decide_eq_true_eq] at hdbl
    rcases (JsNum.ge_zero_iff b).1 hb with rfl | ⟨k, hk, rfl⟩
    · rfl
    · simp only [JsNum.add, JsNum.ofInt]
      rw [if_pos (by omega)]
      split
      · simp only [JsNum.gt, JsNum.lt, decide_eq_false_iff_not, not_lt]
        have h1 : n.natAbs ≤ (k + n).toNat := by omega
        have h2 := le_roundNat_of_le hdbl.1 h1
        omega
      · rfl
  | posInf =>
    rcases (JsNum.ge_zero_iff b).1 hb with rfl | ⟨k, hk, rfl⟩ <;> rfl
  | negInf => simp [JsNum.gt, JsNum.lt, JsNum.zero] at hpos
  | nan => simp [JsNum.gt, JsNum.lt, JsNum.zero] at hpos

theorem JsNum.ofInt_of_isDouble {k : Int} (hk : 0 ≤ k)
    (hdbl : (JsNum.fin k).isDouble = true) : JsNum.ofInt k = JsNum.fin k := by
  simp only [JsNum.isDouble, decide_eq_true_eq] at hdbl
  have hnat : k.natAbs = k.toNat := by omega
  rw [hnat] at hdbl
  unfold JsNum.ofInt
  rw [if_pos hk, if_pos (by rw [hdbl.1]; exact hdbl.2), hdbl.1]
  congr 1
  omega

theorem AccountMap.setBalance_setBalance (m : AccountMap) (key : String) (b1 b2 : JsNum) :
    AccountMap.setBalance (AccountMap.setBalance m key b1) key b2
      = AccountMap.setBalance m key b2 := by
  induction m with
  | nil => rfl
  | cons p rest ih =>
    obtain ⟨k, a0⟩ := p
    by_cases hk : k = key
    · simp [AccountMap.setBalance, hk]
    · simp [AccountMap.setBalance, hk, ih]

theorem BankSystem.deposit_of_get {H : Host} {self : BankSystem} {accountNo : String}
    {amount : JsVal} {acc : BankAccount} (timestamp : String)
    (hacc : self.getAccount accountNo = some acc)
    (hpos : (Number H amount).gt JsNum.zero = true) :
    (self.deposit H accountNo amount timestamp).1
      = Except.ok { acc with balance := acc.balance.add (Number H amount) } := by
  unfold BankSystem.deposit
  simp only
  rw [JsNum.passes_of_gt_zero hpos, BankSystem.requireAccount_of_get hacc]
  simp

theorem BankSystem.withdraw_of_get {H : Host} {self : BankSystem} {accountNo : String}
    {amount : JsVal} {acc : BankAccount} (timestamp : String)
    (hacc : self.getAccount accountNo = some acc)
    (hpos : (Number H amount).gt JsNum.zero = true)
    (hle : (Number H amount).gt acc.balance = false) :
    (self.withdraw H accountNo amount timestamp).1
      = Except.ok { acc with balance := acc.balance.sub (Number H amount) } := by
  unfold BankSystem.withdraw
  simp only
  rw [JsNum.passes_of_gt_zero hpos, BankSystem.requireAccount_of_get hacc]
  simp [hle]

set_option exponentiation.threshold 4096 in
set_option maxRecDepth 8000 in
/-- The claim C7 fails at the account holding `1` and the amount
`2^53 = 9007199254740992`: the deposit succeeds and leaves `2^53` (the sum
`2^53 + 1` is not a binary64 value), the withdrawal succeeds and leaves `0`,
not `1`. -/
theorem C7_counterexample :
    largeLedger.getAccount "ACC-1002" = some
      { accountNo := "ACC-1002", holderName := "Eli"
        balance := JsNum.whole 1, isKYCVerified := true, createdAt := 0 } ∧
    (largeLedger.deposit exampleHost "ACC-1002"
      (JsVal.num (JsNum.whole 9007199254740992)) "t1").1 = Except.ok
      { accountNo := "ACC-1002", holderName := "Eli"
        balance := JsNum.whole 9007199254740992, isKYCVerified := true, createdAt := 0 } ∧
    ((largeLedger.deposit exampleHost "ACC-1002"
      (JsVal.num (JsNum.whole 9007199254740992)) "t1").2.withdraw exampleHost "ACC-1002"
      (JsVal.num (JsNum.whole 9007199254740992)) "t2").1 = Except.ok
      { accountNo := "ACC-1002", holderName := "Eli"
        balance := JsNum.whole 0, isKYCVerified := true, createdAt := 0 } ∧
    ((largeLedger.deposit exampleHost "ACC-1002"
      (JsVal.num (JsNum.whole 9007199254740992)) "t1").2.withdraw exampleHost "ACC-1002"
      (JsVal.num (JsNum.whole 9007199254740992)) "t2").2.getAccount "ACC-1002" = some
      { accountNo := "ACC-1002", holderName := "Eli"
        balance := JsNum.whole 0, isKYCVerified := true, createdAt := 0 } ∧
    JsNum.whole 0 ≠ JsNum.whole 1 := by
  refine ⟨by decide, by rfl, by rfl, by decide, by decide⟩

/-- C7, amended: for an existing account with `balance >= 0` and an amount
`x > 0` (a binary64 value, as every number of the language is),
`deposit(acc, x)` followed by `withdraw(acc, x)` both succeed, leave every
other account as it was, and leave the account with the balance
`(balance + x) - x` as binary64 arithmetic computes it, its other fields
unchanged.  That balance is the one before the deposit whenever the sum
`balance + x` was not rounded, in particular when the balance and `x` are whole
numbers with a sum below `2^53`. -/
theorem C7_deposit_then_withdraw (H : Host) (self : BankSystem) (accountNo : String)
    (amount : JsVal) (timestamp1 timestamp2 : String) (acc : BankAccount)
    (hacc : self.getAccount accountNo = some acc)
    (hbal : acc.balance.ge JsNum.zero = true)
    (hpos : (Number H amount).gt JsNum.zero = true)
    (hdbl : (Number H amount).isDouble = true) :
    ∃ acc1 acc2 : BankAccount,
      (self.deposit H accountNo amount timestamp1).1 = Except.ok acc1 ∧
      ((self.deposit H accountNo amount timestamp1).2.withdraw H accountNo amount
        timestamp2).1 = Except.ok acc2 ∧
      acc2 = { acc with
        balance := (acc.balance.add (Number H amount)).sub (Number H amount) } ∧
      ((self.deposit H accountNo amount timestamp1).2.withdraw H accountNo amount
        timestamp2).2.getAccount accountNo = some acc2 ∧
      (∀ other : String, trim other ≠ trim accountNo →
        ((self.deposit H accountNo amount timestamp1).2.withdraw H accountNo amount
          timestamp2).2.getAccount other = self.getAccount other) ∧
      (∀ k n : Int, acc.balance = JsNum.fin k → acc.balance.isDouble = true →
        Number H amount = JsNum.fin n →
        acc.balance.add (Number H amount) = JsNum.fin (k + n) →
        acc2.balance = acc.balance) ∧
      (∀ k n : Nat, acc.balance = JsNum.whole k → Number H amount = JsNum.whole n →
        k + n < 2 ^ 53 → acc2.balance = acc.balance) := by
  have hd := BankSystem.deposit_of_get timestamp1 hacc hpos
  obtain ⟨acc0, hget0, _, _, _, hst1⟩ := BankSystem.deposit_ok hd
  have hmid : (self.deposit H accountNo amount timestamp1).2.getAccount accountNo
      = some { acc with balance := acc.balance.add (Number H amount) } := by
    rw [hst1]
    simp only [BankSystem.getAccount] at hacc ⊢
    rw [AccountMap.get_setBalance_self, hacc]
    rfl
  have hw := BankSystem.withdraw_of_get timestamp2 hmid hpos
    (JsNum.gt_add_self_false hbal hpos hdbl)
  obtain ⟨_, _, _, _, _, _, hst2⟩ := BankSystem.withdraw_ok hw
  refine ⟨_, _, hd, hw, rfl, ?_, ?_, ?_, ?_⟩
  · rw [hst2, hst1]
    simp only [BankSystem.getAccount] at hacc ⊢
    rw [AccountMap.setBalance_setBalance, AccountMap.get_setBalance_self, hacc]
    rfl
  · intro other hne
    rw [hst2, hst1]
    simp only [BankSystem.getAccount]
    rw [AccountMap.setBalance_setBalance, AccountMap.get_setBalance_other _ _ hne]
  · intro k n hk hkd hn hsum
    simp only
    rw [hsum, hn, hk]
    rw [hk] at hkd hbal
    have hk0 : 0 ≤ k := by simpa [JsNum.ge, JsNum.le, JsNum.zero] using hbal
    simp only [JsNum.sub]
    have : k + n - n = k := by omega
    rw [this]
    exact JsNum.ofInt_of_isDouble hk0 hkd
  · intro k n hk hn hkn
    simp only
    rw [hk, hn, JsNum.add_whole hkn, JsNum.sub_whole hkn (Nat.le_add_left n k)]
    congr 1
    omega

set_option exponentiation.threshold 4096 in
set_option maxRecDepth 8000 in
/-- C7, amended, at a deposit and a withdrawal of `250` on the first seed
account of `app.js`, which holds `50000` before and after. -/
theorem C7_deposit_then_withdraw_witness :
    (seedLedger.getAccount " ACC-1001" = some
        { accountNo := "ACC-1001", holderName := "Alice Johnson"
          balance := JsNum.whole 50000, isKYCVerified := true, createdAt := 0 } ∧
      (JsNum.whole 50000).ge JsNum.zero = true ∧
      (Number exampleHost (JsVal.str "250")).gt JsNum.zero = true ∧
      (Number exampleHost (JsVal.str "250")).isDouble = true) ∧
    (JsNum.whole 50000).add (Number exampleHost (JsVal.str "250")) = JsNum.whole 50250 ∧
    ((JsNum.whole 50000).add (Number exampleHost (JsVal.str "250"))).sub
      (Number exampleHost (JsVal.str "250")) = JsNum.whole 50000 ∧
    ∃ acc1 acc2 : BankAccount,
      (seedLedger.deposit exampleHost " ACC-1001" (JsVal.str "250") "t1").1 = Except.ok acc1 ∧
      ((seedLedger.deposit exampleHost " ACC-1001" (JsVal.str "250") "t1").2.withdraw
        exampleHost " ACC-1001" (JsVal.str "250") "t2").1 = Except.ok acc2 ∧
      acc2 =
        { accountNo := "ACC-1001", holderName := "Alice Johnson"
          balance := ((JsNum.whole 50000).add (Number exampleHost (JsVal.str "250"))).sub
            (Number exampleHost (JsVal.str "250"))
          isKYCVerified := true, createdAt := 0 } ∧
      ((seedLedger.deposit exampleHost " ACC-1001" (JsVal.str "250") "t1").2.withdraw
        exampleHost " ACC-1001" (JsVal.str "250") "t2").2.getAccount " ACC-1001" = some acc2 ∧
      (∀ other : String, trim other ≠ trim " ACC-1001" →
        ((seedLedger.deposit exampleHost " ACC-1001" (JsVal.str "250") "t1").2.withdraw
          exampleHost " ACC-1001" (JsVal.str "250") "t2").2.getAccount other
          = seedLedger.getAccount other) ∧
      (∀ k n : Int, JsNum.whole 50000 = JsNum.fin k → (JsNum.whole 50000).isDouble = true →
        Number exampleHost (JsVal.str "250") = JsNum.fin n →
        (JsNum.whole 50000).add (Number exampleHost (JsVal.str "250")) = JsNum.fin (k + n) →
        acc2.balance = JsNum.whole 50000) ∧
      (∀ k n : Nat, JsNum.whole 50000 = JsNum.whole k →
        Number exampleHost (JsVal.str "250") = JsNum.whole n →
        k + n < 2 ^ 53 → acc2.balance = JsNum.whole 50000) :=
  ⟨⟨by decide, by decide, by decide, by decide⟩, by decide, by decide,
    C7_deposit_then_withdraw exampleHost seedLedger " ACC-1001" (JsVal.str "250") "t1" "t2"
      { accountNo := "ACC-1001", holderName := "Alice Johnson"
        balance := JsNum.whole 50000, isKYCVerified := true, createdAt := 0 }
      (by decide) (by decide) (by decide) (by decide)⟩

/-! ### C8: an amount that is not a number -/

/-- The claim C8 fails at `createAccount` with a holder name that is empty
after trimming and the amount `NaN`, or the string `abc`: the error is the one
for the holder name, not the one for the amount. -/
theorem C8_counterexample :
    Number exampleHost (JsVal.num JsNum.nan) = JsNum.nan ∧
    Number exampleHost (JsVal.str "abc") = JsNum.nan ∧
    BankSystem.new.createAccount exampleHost "  " (JsVal.num JsNum.nan) false 0 "t0"
      = (Except.error "Holder name cannot be empty.", BankSystem.new) ∧
    BankSystem.new.createAccount exampleHost "  " (JsVal.str "abc") false 0 "t0"
      = (Except.error "Holder name cannot be empty.", BankSystem.new) ∧
    (BankSystem.new.createAccount exampleHost "  " (JsVal.str "abc") false 0 "t0").1
      ≠ Except.error "Initial balance must be a non-negative number." := by
  refine ⟨rfl, by decide, by rfl, by rfl, ?_⟩
  have h : (BankSystem.new.createAccount exampleHost "  " (JsVal.str "abc") false 0 "t0").1
      = Except.error "Holder name cannot be empty." := by rfl
  rw [h]
  simp only [ne_eq, Except.error.injEq]
  decide

/-- C8, amended: in every ledger state, an amount that `Number` turns into
`NaN` is rejected by `deposit`, `withdraw` and `transferMoney` with the
operation's amount error before any other check, whatever the other
arguments are: an unknown account number, identical sender and receiver, an
unverified sender.  `createAccount` checks the holder name first: it rejects
the amount with the initial-balance error when the trimmed holder name is not
empty, and throws the holder-name error when it is.  The ledger is unchanged
in each case. -/
theorem C8_nan_amount_is_rejected (H : Host) (self : BankSystem) (amount : JsVal)
    (hnan : Number H amount = JsNum.nan) :
    (∀ accountNo timestamp : String,
      self.deposit H accountNo amount timestamp
        = (Except.error "Deposit amount must be greater than zero.", self)) ∧
    (∀ accountNo timestamp : String,
      self.withdraw H accountNo amount timestamp
        = (Except.error "Withdrawal amount must be greater than zero.", self)) ∧
    (∀ senderAccountNo receiverAccountNo timestamp : String,
      self.transferMoney H senderAccountNo receiverAccountNo amount timestamp
        = (Except.error "Transfer amount must be greater than zero.", self)) ∧
    (∀ (holderName : String) (isKYCVerified : Bool) (createdAt : Nat) (timestamp : String),
      self.createAccount H holderName amount isKYCVerified createdAt timestamp
        = if trim holderName = "" then (Except.error "Holder name cannot be empty.", self)
          else (Except.error "Initial balance must be a non-negative number.", self)) := by
  refine ⟨?_, ?_, ?_, ?_⟩
  · intro accountNo timestamp
    simp [BankSystem.deposit, hnan, JsNum.isNaN]
  · intro accountNo timestamp
    simp [BankSystem.withdraw, hnan, JsNum.isNaN]
  · intro senderAccountNo receiverAccountNo timestamp
    simp [BankSystem.transferMoney, hnan, JsNum.isNaN]
  · intro holderName isKYCVerified createdAt timestamp
    simp [BankSystem.createAccount, hnan, JsNum.isNaN]

set_option exponentiation.threshold 4096 in
set_option maxRecDepth 8000 in
/-- C8, amended, at the amount `abc` on the seed ledger of `app.js`: an unknown
account, sender equal to receiver, an unverified sender, and a holder name
that is and is not empty. -/
theorem C8_nan_amount_is_rejected_witness :
    Number exampleHost (JsVal.str "abc") = JsNum.nan ∧
    seedLedger.deposit exampleHost "ACC-9999" (JsVal.str "abc") "t1"
      = (Except.error "Deposit amount must be greater than zero.", seedLedger) ∧
    seedLedger.withdraw exampleHost "ACC-9999" (JsVal.str "abc") "t1"
      = (Except.error "Withdrawal amount must be greater than zero.", seedLedger) ∧
    seedLedger.transferMoney exampleHost "ACC-1002" "ACC-1002" (JsVal.str "abc") "t1"
      = (Except.error "Transfer amount must be greater than zero.", seedLedger) ∧
    seedLedger.transferMoney exampleHost "ACC-1002" "ACC-1001" (JsVal.str "abc") "t1"
      = (Except.error "Transfer amount must be greater than zero.", seedLedger) ∧
    seedLedger.createAccount exampleHost "Dana" (JsVal.str "abc") true 0 "t1"
      = (Except.error "Initial balance must be a non-negative number.", seedLedger) ∧
    seedLedger.createAccount exampleHost " " (JsVal.str "abc") true 0 "t1"
      = (Except.error "Holder name cannot be empty.", seedLedger) :=
  have h := C8_nan_amount_is_rejected exampleHost seedLedger (JsVal.str "abc") (by decide)
  ⟨by decide, h.1 "ACC-9999" "t1", h.2.1 "ACC-9999" "t1", h.2.2.1 "ACC-1002" "ACC-1002" "t1",
    h.2.2.1 "ACC-1002" "ACC-1001" "t1", h.2.2.2 "Dana" true 0 "t1", h.2.2.2 " " true 0 "t1"⟩

/-! ### C9: the transaction log -/

/-- A call other than the log reset lengthens the log by one when it returns
and leaves it as it is when it throws. -/
theorem BankSystem.log_length_call (H : Host) (self : BankSystem) (c : Call)
    (hc : c ≠ Call.clearLog) :
    (self.call H c).2.transactionLog.length
      = self.transactionLog.length + returned (self.call H c).1 := by
  cases c with
  | createAccount holderName initialBalance isKYCVerified createdAt timestamp =>
    simp only [BankSystem.call]
    cases hres : (self.createAccount H holderName initialBalance isKYCVerified createdAt
      timestamp).1 with
    | error e => rw [BankSystem.createAccount_error hres]; rfl
    | ok account =>
      obtain ⟨_, _, _, _, hst⟩ := BankSystem.createAccount_ok hres
      rw [hst]; rfl
  | deposit accountNo amount timestamp =>
    simp only [BankSystem.call]
    cases hres : (self.deposit H accountNo amount timestamp).1 with
    | error e => rw [BankSystem.deposit_error hres]; rfl
    | ok acc1 =>
      obtain ⟨_, _, _, _, _, hst⟩ := BankSystem.deposit_ok hres
      rw [hst]; rfl
  | withdraw accountNo amount timestamp =>
    simp only [BankSystem.call]
    cases hres : (self.withdraw H accountNo amount timestamp).1 with
    | error e => rw [BankSystem.withdraw_error hres]; rfl
    | ok acc1 =>
      obtain ⟨_, _, _, _, _, _, hst⟩ := BankSystem.withdraw_ok hres
      rw [hst]; rfl
  | transferMoney senderAccountNo receiverAccountNo amount timestamp =>
    simp only [BankSystem.call]
    cases hres : (self.transferMoney H senderAccountNo receiverAccountNo amount
      timestamp).1 with
    | error e => rw [BankSystem.transferMoney_error hres]; rfl
    | ok t =>
      obtain ⟨_, _, _, _, _, _, _, _, _, _, _, hst⟩ := BankSystem.transferMoney_ok hres
      rw [hst]; rfl
  | clearLog => exact absurd rfl hc

theorem BankSystem.log_length_calls (H : Host) (calls : List Call) :
    ∀ self : BankSystem, Call.clearLog ∉ calls →
      (self.calls H calls).transactionLog.length
        = self.transactionLog.length + self.successes H calls := by
  induction calls with
  | nil => intro self _; rfl
  | cons c rest ih =>
    intro self hno
    simp only [List.mem_cons, not_or] at hno
    simp only [BankSystem.calls, BankSystem.successes]
    rw [ih _ hno.2, BankSystem.log_length_call H self c (fun e => hno.1 e.symm)]
    omega

/-- C9: in every ledger state, after a successful `createAccount`, `deposit`,
`withdraw` or `transferMoney` the transaction log is one new entry with status
`SUCCESS` and type `CREATE_ACCOUNT`, `DEPOSIT`, `WITHDRAWAL` or `TRANSFER`
respectively, followed by the log before the call; so the log is newest first,
and after a sequence of calls without a log reset its length has grown by the
number of calls that succeeded. -/
theorem C9_log_gets_one_entry_in_front (H : Host) (self : BankSystem) :
    (∀ (holderName : String) (initialBalance : JsVal) (isKYCVerified : Bool) (createdAt : Nat)
        (timestamp : String) (account : BankAccount),
      (self.createAccount H holderName initialBalance isKYCVerified createdAt timestamp).1
        = Except.ok account →
      ∃ entry : LogEntry,
        (self.createAccount H holderName initialBalance isKYCVerified createdAt
          timestamp).2.getTransactionLog = entry :: self.getTransactionLog ∧
        entry.type = "CREATE_ACCOUNT" ∧ entry.status = "SUCCESS") ∧
    (∀ (accountNo : String) (amount : JsVal) (timestamp : String) (acc : BankAccount),
      (self.deposit H accountNo amount timestamp).1 = Except.ok acc →
      ∃ entry : LogEntry,
        (self.deposit H accountNo amount timestamp).2.getTransactionLog
          = entry :: self.getTransactionLog ∧
        entry.type = "DEPOSIT" ∧ entry.status = "SUCCESS") ∧
    (∀ (accountNo : String) (amount : JsVal) (timestamp : String) (acc : BankAccount),
      (self.withdraw H accountNo amount timestamp).1 = Except.ok acc →
      ∃ entry : LogEntry,
        (self.withdraw H accountNo amount timestamp).2.getTransactionLog
          = entry :: self.getTransactionLog ∧
        entry.type = "WITHDRAWAL" ∧ entry.status = "SUCCESS") ∧
    (∀ (senderAccountNo receiverAccountNo : String) (amount : JsVal) (timestamp : String)
        (t : Transfer),
      (self.transferMoney H senderAccountNo receiverAccountNo amount timestamp).1
        = Except.ok t →
      ∃ entry : LogEntry,
        (self.transferMoney H senderAccountNo receiverAccountNo amount
          timestamp).2.getTransactionLog = entry :: self.getTransactionLog ∧
        entry.type = "TRANSFER" ∧ entry.status = "SUCCESS") ∧
    (∀ calls : List Call, Call.clearLog ∉ calls →
      (self.calls H calls).getTransactionLog.length
        = self.getTransactionLog.length + self.successes H calls) := by
  refine ⟨?_, ?_, ?_, ?_, ?_⟩
  · intro holderName initialBalance isKYCVerified createdAt timestamp account h
    obtain ⟨_, _, _, _, hst⟩ := BankSystem.createAccount_ok h
    rw [hst]
    exact ⟨_, rfl, rfl, rfl⟩
  · intro accountNo amount timestamp acc h
    obtain ⟨_, _, _, _, _, hst⟩ := BankSystem.deposit_ok h
    rw [hst]
    exact ⟨_, rfl, rfl, rfl⟩
  · intro accountNo amount timestamp acc h
    obtain ⟨_, _, _, _, _, _, hst⟩ := BankSystem.withdraw_ok h
    rw [hst]
    exact ⟨_, rfl, rfl, rfl⟩
  · intro senderAccountNo receiverAccountNo amount timestamp t h
    obtain ⟨_, _, _, _, _, _, _, _, _, _, _, hst⟩ := BankSystem.transferMoney_ok h
    rw [hst]
    exact ⟨_, rfl, rfl, rfl⟩
  · intro calls hno
    exact BankSystem.log_length_calls H calls self hno

set_option exponentiation.threshold 4096 in
set_option maxRecDepth 8000 in
/-- C9 at the three seed accounts of `app.js` followed by a failed deposit and
two deposits: five calls succeed, the log has five entries, and the first is
the one of the last deposit. -/
theorem C9_log_gets_one_entry_in_front_witness :
    BankSystem.new.successes exampleHost
      [Call.createAccount "Alice Johnson" (JsVal.num (JsNum.whole 50000)) true 0 "t0",
       Call.createAccount "Bob Smith" (JsVal.num (JsNum.whole 15000)) false 0 "t1",
       Call.createAccount "Carol Davis" (JsVal.num (JsNum.whole 30000)) true 0 "t2",
       Call.deposit "ACC-1004" (JsVal.str "100") "t3",
       Call.deposit "ACC-1001" (JsVal.str "100") "t4",
       Call.deposit "ACC-1002" (JsVal.str "200") "t5"] = 5 ∧
    (BankSystem.new.calls exampleHost
      [Call.createAccount "Alice Johnson" (JsVal.num (JsNum.whole 50000)) true 0 "t0",
       Call.createAccount "Bob Smith" (JsVal.num (JsNum.whole 15000)) false 0 "t1",
       Call.createAccount "Carol Davis" (JsVal.num (JsNum.whole 30000)) true 0 "t2",
       Call.deposit "ACC-1004" (JsVal.str "100") "t3",
       Call.deposit "ACC-1001" (JsVal.str "100") "t4",
       Call.deposit "ACC-1002" (JsVal.str "200") "t5"]).getTransactionLog.length
      = BankSystem.new.getTransactionLog.length + BankSystem.new.successes exampleHost
      [Call.createAccount "Alice Johnson" (JsVal.num (JsNum.whole 50000)) true 0 "t0",
       Call.createAccount "Bob Smith" (JsVal.num (JsNum.whole 15000)) false 0 "t1",
       Call.createAccount "Carol Davis" (JsVal.num (JsNum.whole 30000)) true 0 "t2",
       Call.deposit "ACC-1004" (JsVal.str "100") "t3",
       Call.deposit "ACC-1001" (JsVal.str "100") "t4",
       Call.deposit "ACC-1002" (JsVal.str "200") "t5"] ∧
    (BankSystem.new.calls exampleHost
      [Call.createAccount "Alice Johnson" (JsVal.num (JsNum.whole 50000)) true 0 "t0",
       Call.createAccount "Bob Smith" (JsVal.num (JsNum.whole 15000)) false 0 "t1",
       Call.createAccount "Carol Davis" (JsVal.num (JsNum.whole 30000)) true 0 "t2",
       Call.deposit "ACC-1004" (JsVal.str "100") "t3",
       Call.deposit "ACC-1001" (JsVal.str "100") "t4",
       Call.deposit "ACC-1002" (JsVal.str "200") "t5"]).getTransactionLog.head?
      = some
        { id := 5, timestamp := "t5", type := "DEPOSIT"
          details := "₹200 deposited to ACC-1002 (Bob Smith). New balance: ₹15200."
          status := "SUCCESS" } :=
  ⟨by decide,
    (C9_log_gets_one_entry_in_front exampleHost BankSystem.new).2.2.2.2 _ (by decide),
    by decide⟩

/-! ### C10: what the money movements leave alone -/

theorem AccountMap.fields_setBalance (m : AccountMap) (key : String) (b : JsNum) :
    (AccountMap.setBalance m key b).map
        (fun p => (p.1, p.2.accountNo, p.2.holderName, p.2.isKYCVerified))
      = m.map (fun p => (p.1, p.2.accountNo, p.2.holderName, p.2.isKYCVerified)) :=
  AccountMap.map_setBalance (fun k => k)
    (fun a => (a.accountNo, a.holderName, a.isKYCVerified)) (fun _ _ => rfl) m key b

/-- C10: in every ledger state, a successful `deposit`, `withdraw` or
`transferMoney` keeps the entries of the accounts map, in their order, with
their keys and with the `accountNo`, `holderName` and `isKYCVerified` of each
account, so no account is added or deleted; and every account stored under a
number other than the one named (for `transferMoney`: other than the sender's
and the receiver's) is the account it was, balance included. -/
theorem C10_money_movements_keep_the_rest (H : Host) (self : BankSystem) :
    (∀ (accountNo : String) (amount : JsVal) (timestamp : String) (acc : BankAccount),
      (self.deposit H accountNo amount timestamp).1 = Except.ok acc →
      (self.deposit H accountNo amount timestamp).2.accounts.map
          (fun p => (p.1, p.2.accountNo, p.2.holderName, p.2.isKYCVerified))
        = self.accounts.map
          (fun p => (p.1, p.2.accountNo, p.2.holderName, p.2.isKYCVerified)) ∧
      ∀ other : String, trim other ≠ trim accountNo →
        (self.deposit H accountNo amount timestamp).2.getAccount other
          = self.getAccount other) ∧
    (∀ (accountNo : String) (amount : JsVal) (timestamp : String) (acc : BankAccount),
      (self.withdraw H accountNo amount timestamp).1 = Except.ok acc →
      (self.withdraw H accountNo amount timestamp).2.accounts.map
          (fun p => (p.1, p.2.accountNo, p.2.holderName, p.2.isKYCVerified))
        = self.accounts.map
          (fun p => (p.1, p.2.accountNo, p.2.holderName, p.2.isKYCVerified)) ∧
      ∀ other : String, trim other ≠ trim accountNo →
        (self.withdraw H accountNo amount timestamp).2.getAccount other
          = self.getAccount other) ∧
    (∀ (senderAccountNo receiverAccountNo : String) (amount : JsVal) (timestamp : String)
        (t : Transfer),
      (self.transferMoney H senderAccountNo receiverAccountNo amount timestamp).1
        = Except.ok t →
      (self.transferMoney H senderAccountNo receiverAccountNo amount timestamp).2.accounts.map
          (fun p => (p.1, p.2.accountNo, p.2.holderName, p.2.isKYCVerified))
        = self.accounts.map
          (fun p => (p.1, p.2.accountNo, p.2.holderName, p.2.isKYCVerified)) ∧
      ∀ other : String, trim other ≠ trim senderAccountNo →
        trim other ≠ trim receiverAccountNo →
        (self.transferMoney H senderAccountNo receiverAccountNo amount
          timestamp).2.getAccount other = self.getAccount other) := by
  refine ⟨?_, ?_, ?_⟩
  · intro accountNo amount timestamp acc h
    obtain ⟨_, _, _, _, _, hst⟩ := BankSystem.deposit_ok h
    rw [hst]
    refine ⟨AccountMap.fields_setBalance _ _ _, ?_⟩
    intro other hne
    exact AccountMap.get_setBalance_other _ _ hne
  · intro accountNo amount timestamp acc h
    obtain ⟨_, _, _, _, _, _, hst⟩ := BankSystem.withdraw_ok h
    rw [hst]
    refine ⟨AccountMap.fields_setBalance _ _ _, ?_⟩
    intro other hne
    exact AccountMap.get_setBalance_other _ _ hne
  · intro senderAccountNo receiverAccountNo amount timestamp t h
    obtain ⟨_, _, _, _, _, _, _, _, _, _, _, hst⟩ := BankSystem.transferMoney_ok h
    rw [hst]
    refine ⟨?_, ?_⟩
    · simp only
      rw [AccountMap.fields_setBalance, AccountMap.fields_setBalance]
    · intro other hs hr
      simp only [BankSystem.getAccount]
      rw [AccountMap.get_setBalance_other _ _ hr, AccountMap.get_setBalance_other _ _ hs]

set_option exponentiation.threshold 4096 in
set_option maxRecDepth 8000 in
/-- C10 at a transfer of `500` from the first to the third seed account of
`app.js`: the three entries keep their keys and fields, and the second
account is as it was. -/
theorem C10_money_movements_keep_the_rest_witness :
    (seedLedger.transferMoney exampleHost "ACC-1001" "ACC-1003" (JsVal.str "500") "t1").1
      = Except.ok
        { sender :=
            { accountNo := "ACC-1001", holderName := "Alice Johnson"
              balance := JsNum.whole 49500, isKYCVerified := true, createdAt := 0 }
          receiver :=
            { accountNo := "ACC-1003", holderName := "Carol Davis"
              balance := JsNum.whole 30500, isKYCVerified := true, createdAt := 0 } } ∧
    ((seedLedger.transferMoney exampleHost "ACC-1001" "ACC-1003" (JsVal.str "500")
        "t1").2.accounts.map
          (fun p => (p.1, p.2.accountNo, p.2.holderName, p.2.isKYCVerified))
        = seedLedger.accounts.map
          (fun p => (p.1, p.2.accountNo, p.2.holderName, p.2.isKYCVerified)) ∧
      ∀ other : String, trim other ≠ trim "ACC-1001" → trim other ≠ trim "ACC-1003" →
        (seedLedger.transferMoney exampleHost "ACC-1001" "ACC-1003" (JsVal.str "500")
          "t1").2.getAccount other = seedLedger.getAccount other) ∧
    seedLedger.accounts.map (fun p => (p.1, p.2.accountNo, p.2.holderName, p.2.isKYCVerified))
      = [("ACC-1001", "ACC-1001", "Alice Johnson", true),
         ("ACC-1002", "ACC-1002", "Bob Smith", false),
         ("ACC-1003", "ACC-1003", "Carol Davis", true)] ∧
    (seedLedger.transferMoney exampleHost "ACC-1001" "ACC-1003" (JsVal.str "500")
      "t1").2.getAccount "ACC-1002" = some
        { accountNo := "ACC-1002", holderName := "Bob Smith"
          balance := JsNum.whole 15000, isKYCVerified := false, createdAt := 0 } :=
  ⟨by rfl,
    (C10_money_movements_keep_the_rest exampleHost seedLedger).2.2 "ACC-1001" "ACC-1003"
      (JsVal.str "500") "t1" _ (by rfl),
    by decide, by decide⟩

/-! ### C11: what `createAccount` does -/

theorem AccountMap.get_set_self (m : AccountMap) (key : String) (v : BankAccount) :
    AccountMap.get (AccountMap.set m key v) key = some v := by
  induction m with
  | nil => simp [AccountMap.set, AccountMap.get]
  | cons p rest ih =>
    obtain ⟨k, a0⟩ := p
    simp only [AccountMap.set]
    by_cases hk : k = key
    · rw [if_pos hk]
      simp only [AccountMap.get]
      rw [if_pos hk]
    · rw [if_neg hk]
      simp only [AccountMap.get]
      rw [if_neg hk, ih]

theorem AccountMap.get_set_other (m : AccountMap) {key other : String} (v : BankAccount)
    (hne : other ≠ key) :
    AccountMap.get (AccountMap.set m key v) other = AccountMap.get m other := by
  induction m with
  | nil =>
    simp only [AccountMap.set, AccountMap.get]
    rw [if_neg (fun e => hne e.symm)]
  | cons p rest ih =>
    obtain ⟨k, a0⟩ := p
    simp only [AccountMap.set]
    by_cases hk : k = key
    · have hko : k ≠ other := by rw [hk]; exact fun h => hne h.symm
      rw [if_pos hk]
      simp only [AccountMap.get]
      rw [if_neg hko, if_neg hko]
    · rw [if_neg hk]
      simp only [AccountMap.get]
      by_cases hko : k = other
      · rw [if_pos hko, if_pos hko]
      · rw [if_neg hko, if_neg hko, ih]

theorem AccountMap.get_of_not_mem (m : AccountMap) (key : String)
    (h : key ∉ m.map Prod.fst) : AccountMap.get m key = none := by
  induction m with
  | nil => rfl
  | cons p rest ih =>
    obtain ⟨k, a0⟩ := p
    simp only [List.map_cons, List.mem_cons, not_or] at h
    simp only [AccountMap.get]
    rw [if_neg (fun e => h.1 e.symm), ih h.2]

theorem digitChar_not_whiteSpace {d : Nat} (h : d < 10) :
    isJsWhiteSpace (Nat.digitChar d) = false := by
  interval_cases d <;> decide

theorem toDigitsCore_not_whiteSpace (fuel : Nat) :
    ∀ (n : Nat) (ds : List Char), (∀ c ∈ ds, isJsWhiteSpace c = false) →
      ∀ c ∈ Nat.toDigitsCore 10 fuel n ds, isJsWhiteSpace c = false := by
  induction fuel with
  | zero => intro n ds h; simpa [Nat.toDigitsCore] using h
  | succ fuel ih =>
    intro n ds h
    have hcons : ∀ c ∈ Nat.digitChar (n % 10) :: ds, isJsWhiteSpace c = false := by
      intro c hc
      rcases List.mem_cons.1 hc with rfl | hc
      · exact digitChar_not_whiteSpace (Nat.mod_lt _ (by decide))
      · exact h c hc
    simp only [Nat.toDigitsCore]
    by_cases h0 : n / 10 = 0
    · rw [if_pos h0]; exact hcons
    · rw [if_neg h0]; exact ih _ _ hcons

theorem dropWhile_of_all_false {l : List Char} (h : ∀ c ∈ l, isJsWhiteSpace c = false) :
    l.dropWhile isJsWhiteSpace = l := by
  cases l with
  | nil => rfl
  | cons c rest => simp [List.dropWhile, h c (List.mem_cons_self _ _)]

/-- A string without white space is its own trimmed string. -/
theorem trim_of_no_whiteSpace {s : String} (h : ∀ c ∈ s.data, isJsWhiteSpace c = false) :
    trim s = s := by
  unfold trim
  rw [dropWhile_of_all_false h,
    dropWhile_of_all_false (fun c hc => h c (List.mem_reverse.1 hc)), List.reverse_reverse]

/-- An account number `ACC-<digits>` is its own trimmed string. -/
theorem trim_accountNo (n : Nat) : trim ("ACC-" ++ toString n) = "ACC-" ++ toString n := by
  apply trim_of_no_whiteSpace
  intro c hc
  simp only [String.data_append, List.mem_append] at hc
  rcases hc with hc | hc
  · have : c = 'A' ∨ c = 'C' ∨ c = '-' := by simpa using hc
    rcases this with rfl | rfl | rfl <;> decide
  · have hd : (toString n).data = Nat.toDigits 10 n := by
      simp [toString, Nat.repr, List.asString]
    rw [hd] at hc
    exact toDigitsCore_not_whiteSpace _ _ [] (fun _ h => absurd h (List.not_mem_nil _)) c hc

theorem JsNum.valid_of_ge_zero {x : JsNum} (h : x.ge JsNum.zero = true) :
    (x.isNaN || x.lt JsNum.zero) = false := by
  rcases (JsNum.ge_zero_iff x).1 h with rfl | ⟨k, hk, rfl⟩
  · rfl
  · simp only [JsNum.isNaN, JsNum.lt, JsNum.zero, Bool.false_or, decide_eq_false_iff_not]
    omega

theorem BankSystem.createAccount_of_valid {H : Host} (self : BankSystem) {holderName : String}
    {initialBalance : JsVal} (isKYCVerified : Bool) (createdAt : Nat) (timestamp : String)
    (hname : trim holderName ≠ "")
    (hbal : (Number H initialBalance).ge JsNum.zero = true) :
    (self.createAccount H holderName initialBalance isKYCVerified createdAt timestamp).1
      = Except.ok
        { accountNo := "ACC-" ++ toString (self._counter + 1)
          holderName := trim holderName
          balance := Number H initialBalance
          isKYCVerified := isKYCVerified
          createdAt := createdAt } := by
  unfold BankSystem.createAccount
  simp only
  rw [if_neg hname, JsNum.valid_of_ge_zero hbal]
  rfl

theorem BankSystem.numbered_next_not_mem {self : BankSystem} {m : Nat}
    (h : self.numbered m) :
    "ACC-" ++ toString (self._counter + 1) ∉ self.accounts.map Prod.fst := by
  have hfst : self.accounts.map Prod.fst
      = (List.range m).map (fun i => "ACC-" ++ toString (1001 + i)) := by
    have := congrArg (List.map Prod.fst) h.2
    simpa [List.map_map, Function.comp_def] using this
  rw [hfst, h.1]
  intro hmem
  obtain ⟨i, hi, heq⟩ := List.mem_map.1 hmem
  have := accountNo_injective heq
  have := List.mem_range.1 hi
  omega

/-- C11: in every ledger reached from a new `BankSystem` by a sequence of
calls, `createAccount` with a holder name that is not empty after trimming, an
initial balance with `Number(initialBalance) >= 0` and any KYC flag succeeds
and returns an account with the trimmed name, the balance
`Number(initialBalance)`, the flag, and the number `ACC-<counter>` for the
incremented counter; afterwards `getAccount` of that number returns this
account, no account was stored under that number before, every account stored
under another number is the account it was, and `getAllAccounts()` is the list
before followed by the new account.  In every ledger state, with a holder name
that is empty after trimming `createAccount` throws "Holder name cannot be
empty." and leaves the ledger as it was. -/
theorem C11_createAccount_creates (H : Host) (calls : List Call) (holderName : String)
    (initialBalance : JsVal) (isKYCVerified : Bool) (createdAt : Nat) (timestamp : String) :
    (trim holderName ≠ "" → (Number H initialBalance).ge JsNum.zero = true →
      ∃ account : BankAccount,
        ((BankSystem.new.calls H calls).createAccount H holderName initialBalance
          isKYCVerified createdAt timestamp).1 = Except.ok account ∧
        account.holderName = trim holderName ∧
        account.balance = Number H initialBalance ∧
        account.isKYCVerified = isKYCVerified ∧
        account.accountNo = "ACC-" ++ toString ((BankSystem.new.calls H calls)._counter + 1) ∧
        ((BankSystem.new.calls H calls).createAccount H holderName initialBalance
          isKYCVerified createdAt timestamp).2._counter
          = (BankSystem.new.calls H calls)._counter + 1 ∧
        ((BankSystem.new.calls H calls).createAccount H holderName initialBalance
          isKYCVerified createdAt timestamp).2.getAccount account.accountNo = some account ∧
        (BankSystem.new.calls H calls).getAccount account.accountNo = none ∧
        (∀ other : String, trim other ≠ account.accountNo →
          ((BankSystem.new.calls H calls).createAccount H holderName initialBalance
            isKYCVerified createdAt timestamp).2.getAccount other
            = (BankSystem.new.calls H calls).getAccount other) ∧
        ((BankSystem.new.calls H calls).createAccount H holderName initialBalance
          isKYCVerified createdAt timestamp).2.getAllAccounts
          = (BankSystem.new.calls H calls).getAllAccounts ++ [account]) ∧
    (∀ self : BankSystem, trim holderName = "" →
      self.createAccount H holderName initialBalance isKYCVerified createdAt timestamp
        = (Except.error "Holder name cannot be empty.", self)) := by
  refine ⟨?_, ?_⟩
  · intro hname hbal
    have hnum := (BankSystem.numbered_calls H calls BankSystem.new 0 ⟨rfl, rfl⟩).1
    have hres := BankSystem.createAccount_of_valid (H := H) (BankSystem.new.calls H calls)
      isKYCVerified createdAt timestamp hname hbal
    obtain ⟨_, _, _, _, hst⟩ := BankSystem.createAccount_ok hres
    have hnot := BankSystem.numbered_next_not_mem hnum
    refine ⟨_, hres, rfl, rfl, rfl, rfl, ?_, ?_, ?_, ?_, ?_⟩
    · rw [hst]
    · rw [hst]
      simp only [BankSystem.getAccount]
      rw [trim_accountNo, AccountMap.get_set_self]
    · simp only [BankSystem.getAccount]
      rw [trim_accountNo]
      exact AccountMap.get_of_not_mem _ _ hnot
    · intro other hne
      rw [hst]
      simp only [BankSystem.getAccount]
      exact AccountMap.get_set_other _ _ hne
    · rw [hst]
      simp only [BankSystem.getAllAccounts, AccountMap.values]
      rw [AccountMap.set_of_not_mem _ _ _ hnot, List.map_append]
      rfl
  · intro self hempty
    unfold BankSystem.createAccount
    simp only
    rw [if_pos hempty]

set_option exponentiation.threshold 4096 in
set_option maxRecDepth 8000 in
/-- C11 at the ledger `app.js` starts with: `createAccount(" Dana Lee ", "250",
true)` returns the account `ACC-1004` of `Dana Lee` with balance `250`, and
`createAccount("   ", "250", true)` throws. -/
theorem C11_createAccount_creates_witness :
    (trim " Dana Lee " ≠ "" ∧ (Number exampleHost (JsVal.str "250")).ge JsNum.zero = true) ∧
    (seedLedger.createAccount exampleHost " Dana Lee " (JsVal.str "250") true 7 "t1").1
      = Except.ok
        { accountNo := "ACC-1004", holderName := "Dana Lee", balance := JsNum.whole 250
          isKYCVerified := true, createdAt := 7 } ∧
    (∃ account : BankAccount,
      (seedLedger.createAccount exampleHost " Dana Lee " (JsVal.str "250") true 7 "t1").1
        = Except.ok account ∧
      account.holderName = trim " Dana Lee " ∧
      account.balance = Number exampleHost (JsVal.str "250") ∧
      account.isKYCVerified = true ∧
      account.accountNo = "ACC-" ++ toString (seedLedger._counter + 1) ∧
      (seedLedger.createAccount exampleHost " Dana Lee " (JsVal.str "250") true 7
        "t1").2._counter = seedLedger._counter + 1 ∧
      (seedLedger.createAccount exampleHost " Dana Lee " (JsVal.str "250") true 7
        "t1").2.getAccount account.accountNo = some account ∧
      seedLedger.getAccount account.accountNo = none ∧
      (∀ other : String, trim other ≠ account.accountNo →
        (seedLedger.createAccount exampleHost " Dana Lee " (JsVal.str "250") true 7
          "t1").2.getAccount other = seedLedger.getAccount other) ∧
      (seedLedger.createAccount exampleHost " Dana Lee " (JsVal.str "250") true 7
        "t1").2.getAllAccounts = seedLedger.getAllAccounts ++ [account]) ∧
    seedLedger.createAccount exampleHost "   " (JsVal.str "250") true 7 "t1"
      = (Except.error "Holder name cannot be empty.", seedLedger) :=
  ⟨⟨by decide, by decide⟩, by rfl,
    (C11_createAccount_creates exampleHost
      [Call.createAccount "Alice Johnson" (JsVal.num (JsNum.whole 50000)) true 0 "t0",
       Call.createAccount "Bob Smith" (JsVal.num (JsNum.whole 15000)) false 0 "t0",
       Call.createAccount "Carol Davis" (JsVal.num (JsNum.whole 30000)) true 0 "t0"]
      " Dana Lee " (JsVal.str "250") true 7 "t1").1 (by decide) (by decide),
    (C11_createAccount_creates exampleHost [] "   " (JsVal.str "250") true 7 "t1").2
      seedLedger (by decide)⟩

end Bank
